import Mathlib

set_option maxRecDepth 100000

/-!
Shallow embedding of the GoWorld ecosystem simulator (github.com/rubinda/GoWorld).

Sources embedded here:
  * terrain/terrain.go  — the world grid, being decision engine, plant lifecycle;
  * the pathing package — A* search over the grid (GetPath / astar / aStarQueue).

Modelling conventions, used uniformly below:
  * Go float64 is modelled as ℚ.  All arithmetic in the embedded code is exact
    (additions, subtractions, multiplications, divisions by constants and
    comparisons), so rationals are a faithful carrier for every comparison the
    source performs.
  * math.Sqrt appears in the source only inside RandomWorld.Distance, whose
    value is used exclusively in comparisons with other Distance values or with
    the constant 2.  Since sqrt is strictly monotone on nonnegative reals,
    every such comparison is equivalent to the same comparison of the squared
    values; the embedding therefore works with the squared distance
    (DistanceSq) and compares against squared constants.  Each use site is
    commented.
  * uuid.UUID identities are modelled as ℕ; the uuid.Nil sentinel stored in
    grid cells is modelled as none of an Option ℕ (spec section 9 documents the
    sentinel pattern).  Go maps keyed by id.String() are modelled as
    association lists keyed by the ℕ id.
  * Go's math/rand draws are modelled as explicit streams of values passed in
    and threaded through (ints for rand.Intn, rationals for rand.Float64 and
    rand.NormFloat64).  Theorems quantify over the streams.
  * Where Go would panic on an out-of-range slice index the embedding reads a
    default element (grid accesses are bounds-checked by the source before
    use); the one reachable out-of-range read, hist[256] in
    CalculateZoneLimits, is modelled explicitly as an error outcome.
-/

/-- Location of a cell: integer coordinates, origin at the lower left
(GoWorld.Location). -/
structure Location where
  X : ℤ
  Y : ℤ
deriving DecidableEq, Repr, Inhabited

/-- Surface data for one elevation zone (terrain.Surface).  The uuid identity
is modelled as a small ℕ; the display color is irrelevant to every claim and
is omitted. -/
structure Surface where
  ID : ℕ
  CommonName : String
  Habitable : Bool
deriving DecidableEq, Repr, Inhabited

/-- The predefined surface list (terrain.Surfaces), in source order:
Water, Grassland, Forest, Gravel, Mountain, Moutain Peak.  The random uuids
are modelled as the indices 0..5. -/
def Surfaces : List Surface :=
  [⟨0, "Water", false⟩,
   ⟨1, "Grassland", true⟩,
   ⟨2, "Forest", true⟩,
   ⟨3, "Gravel", true⟩,
   ⟨4, "Mountain", true⟩,
   ⟨5, "Moutain Peak", false⟩]

/-- One cell of the occupancy grid (terrain.Spot).  The Surface pointer is
modelled as an index into Surfaces; the three uuid fields with their uuid.Nil
sentinels are modelled as Option ℕ. -/
structure Spot where
  SurfaceIdx : ℕ
  Object : Option ℕ
  Being : Option ℕ
  OccupyingPlant : Option ℕ
deriving DecidableEq, Repr

instance : Inhabited Spot := ⟨⟨0, none, none, none⟩⟩

/-- A being (GoWorld.Being).  Field names follow the Go struct; float64
attributes are ℚ.  The Go field Type is spelled TypeTag (keyword in Lean). -/
structure Being where
  ID : ℕ
  Hunger : ℚ
  Thirst : ℚ
  WantsChild : ℚ
  LifeExpectancy : ℚ
  VisionRange : ℚ
  Speed : ℚ
  Durability : ℚ
  Stress : ℚ
  Habitat : ℕ
  Gender : String
  Size : ℚ
  Fertility : ℚ
  MutationRate : ℚ
  Position : Location
  TypeTag : String
deriving DecidableEq, Repr

instance : Inhabited Being :=
  ⟨⟨0, 0, 0, 0, 0, 0, 0, 0, 0, 0, "", 0, 0, 0, ⟨0, 0⟩, ""⟩⟩

/-- A plant (GoWorld.Food).  Field names follow the Go struct; the Go field
Type is spelled TypeTag (keyword in Lean). -/
structure Food where
  ID : ℕ
  GrowthSpeed : ℚ
  NutritionalValue : ℚ
  Taste : ℚ
  GrowthStage : ℚ
  StageProgress : ℚ
  Area : ℚ
  Seeds : ℚ
  SeedDisperse : ℚ
  Wither : ℚ
  MutationRate : ℚ
  Habitat : ℕ
  Position : Location
  TypeTag : String
deriving DecidableEq, Repr

instance : Inhabited Food :=
  ⟨⟨0, 0, 0, 0, 0, 0, 0, 0, 0, 0, 0, 0, ⟨0, 0⟩, ""⟩⟩

/-- Association-list lookup, modelling a Go map read (nil for a missing key
becomes none). -/
def alLookup {α : Type} (k : ℕ) : List (ℕ × α) → Option α
  | [] => none
  | (k2, v) :: rest => if k2 = k then some v else alLookup k rest

/-- Association-list deletion, modelling Go's delete on a map. -/
def alDelete {α : Type} (k : ℕ) (l : List (ℕ × α)) : List (ℕ × α) :=
  l.filter (fun p => p.1 != k)

/-- Association-list write, modelling a Go map assignment. -/
def alSet {α : Type} (k : ℕ) (v : α) (l : List (ℕ × α)) : List (ℕ × α) :=
  (k, v) :: alDelete k l

/-- The world state (terrain.RandomWorld): dimensions, the spot grid
(TerrainSpots, indexed [x][y] like the Go slice-of-slices), and the two
id-keyed registries.  The images and the pathfinder pointer carry no state
beyond what is embedded elsewhere. -/
structure RandomWorld where
  Width : ℤ
  Height : ℤ
  TerrainSpots : List (List Spot)
  BeingList : List (ℕ × Being)
  FoodList : List (ℕ × Food)
deriving DecidableEq, Repr

/-- Read the spot at a location (w.TerrainSpots[x][y]).  Go panics on an
out-of-range index; the source always bounds-checks first, so the default
element is never observed on the paths the claims exercise. -/
def RandomWorld.spotAt (w : RandomWorld) (l : Location) : Spot :=
  (w.TerrainSpots.getD l.X.toNat []).getD l.Y.toNat default

/-- Write the spot at a location (assignment to w.TerrainSpots[x][y]). -/
def RandomWorld.setSpot (w : RandomWorld) (l : Location) (s : Spot) : RandomWorld :=
  { w with TerrainSpots :=
      w.TerrainSpots.set l.X.toNat ((w.TerrainSpots.getD l.X.toNat []).set l.Y.toNat s) }

/-- The surface record referenced by a spot (the *Surface pointer). -/
def surfaceOf (s : Spot) : Surface := Surfaces.getD s.SurfaceIdx default

/-- RandomWorld.IsOutOfBounds from terrain.go. -/
def RandomWorld.IsOutOfBounds (w : RandomWorld) (l : Location) : Bool :=
  l.X < 0 || l.X ≥ w.Width || l.Y < 0 || l.Y ≥ w.Height

/-- RandomWorld.GetSurfaceNameAt.  The Go function returns ("", error) when out
of bounds and every caller discards the error, so the embedding returns the
string component only. -/
def RandomWorld.GetSurfaceNameAt (w : RandomWorld) (l : Location) : String :=
  if w.IsOutOfBounds l then "" else (surfaceOf (w.spotAt l)).CommonName

/-- RandomWorld.GetBeingAt.  Returns (uuid.Nil, error) out of bounds; callers
compare against uuid.Nil only, so the embedding returns the Option alone. -/
def RandomWorld.GetBeingAt (w : RandomWorld) (l : Location) : Option ℕ :=
  if w.IsOutOfBounds l then none else (w.spotAt l).Being

/-- RandomWorld.IsHabitable.  Returns (false, error) out of bounds; callers
discard the error. -/
def RandomWorld.IsHabitable (w : RandomWorld) (l : Location) : Bool :=
  if w.IsOutOfBounds l then false else (surfaceOf (w.spotAt l)).Habitable

/-- The eight compass offsets (directions8), in source order. -/
def directions8 : List Location :=
  [⟨-1, -1⟩, ⟨0, -1⟩, ⟨1, -1⟩, ⟨1, 0⟩, ⟨1, 1⟩, ⟨0, 1⟩, ⟨-1, 1⟩, ⟨-1, 0⟩]

/-- Squared Euclidean distance between two locations.  RandomWorld.Distance
returns math.Sqrt of this value; every use of Distance in the source compares
it with another Distance value or with the constant 2, and sqrt is strictly
monotone, so the embedding carries the square (comparisons against constants
are squared at the use sites). -/
def DistanceSq (a b : Location) : ℚ :=
  (((a.X - b.X) ^ 2 + (a.Y - b.Y) ^ 2 : ℤ) : ℚ)

/-- Go's int(x) conversion from float64: truncation toward zero. -/
def goInt (q : ℚ) : ℤ :=
  if 0 ≤ q then q.floor else -((-q).floor)

/-- Go's math.Round: rounding half away from zero. -/
def goRound (q : ℚ) : ℤ :=
  if 0 ≤ q then (q + 1/2).floor else -((-q + 1/2).floor)

/-- Inclusive integer range [a, b], the loop "for xi := a; xi <= b; xi++". -/
def intRange (a b : ℤ) : List ℤ :=
  (List.range (b - a + 1).toNat).map (fun i => a + (i : ℤ))

/-- One xi entry of the midpoint-circle row loops: the spot at (xi, cy + dy)
followed by the opposite spot at (xi, cy - dy), each kept only when inside the
world bounds — matching the push order of MidpointCircleAt. -/
def circleRowPair (w : RandomWorld) (cy dy : ℤ) (xlo xhi : ℤ) : List Location :=
  (intRange xlo xhi).flatMap (fun xi =>
    (if w.IsOutOfBounds ⟨xi, cy + dy⟩ then [] else [⟨xi, cy + dy⟩]) ++
    (if w.IsOutOfBounds ⟨xi, cy - dy⟩ then [] else [⟨xi, cy - dy⟩]))

/-- The "for x >= y" loop of MidpointCircleAt.  Per iteration: y++, update P
(decrementing x when P was nonnegative), break when x < y, then emit the two
symmetric rows (the second pair only when x ≠ y).  Fuel bounds the iteration
count; y grows by one per step so any fuel above the initial x suffices. -/
def midpointLoop (w : RandomWorld) (cx cy : ℤ) :
    ℕ → ℤ → ℤ → ℤ → List Location
  | 0, _, _, _ => []
  | fuel + 1, x, y, P =>
    if x ≥ y then
      let y2 := y + 1
      let x2 := if P < 0 then x else x - 1
      let P2 := if P < 0 then P + 2 * y2 + 1 else P + 2 * y2 - 2 * x2 + 1
      if x2 < y2 then []
      else
        circleRowPair w cy y2 (cx - x2) (cx + x2) ++
        (if x2 ≠ y2 then circleRowPair w cy x2 (cx - y2) (cx + y2) else []) ++
        midpointLoop w cx cy fuel x2 y2 P2
    else []

/-- RandomWorld.MidpointCircleAt: the filled circle of the given radius around
the center, clipped to the world bounds, in the source's emission order. -/
def RandomWorld.MidpointCircleAt (w : RandomWorld) (center : Location) (radius : ℚ) :
    List Location :=
  let x0 := goRound radius
  let row0 := (intRange (center.X - x0) (center.X + x0)).filterMap (fun xi =>
    if w.IsOutOfBounds ⟨xi, center.Y⟩ then none else some ⟨xi, center.Y⟩)
  row0 ++ midpointLoop w center.X center.Y (x0.toNat + 2) x0 0 (1 - x0)

/-- RandomWorld.canPlaceBeing: a being of the given type may move onto the
spot (no being present, and the surface traversable for the type). -/
def RandomWorld.canPlaceBeing (w : RandomWorld) (spot : Location) (beingType : String) :
    Bool :=
  if (w.spotAt spot).Being = none then
    if beingType = "Flying" then true
    else if beingType = "Water" then
      let spotName := w.GetSurfaceNameAt spot
      spotName = "Water" || spotName = "Grassland"
    else (surfaceOf (w.spotAt spot)).Habitable
  else false

/-- Error outcomes of CalculateZoneLimits.  The Go function panics in all
three situations: the two fmt.Errorf panics guarding the input (the
ConfigError of the spec) and a reachable index-out-of-range read of hist[256]
when a previous zone consumed every bin without a closer undershoot. -/
inductive ZoneLimitErr where
  | ratioSumNotOne : ZoneLimitErr
  | notEnoughSurfaces : ZoneLimitErr
  | histIndexOutOfRange : ZoneLimitErr
deriving DecidableEq, Repr

/-- Whether a CalculateZoneLimits outcome is one of the two guarded input
failures — the ConfigError class of the spec (bad ratio sum, too few
surfaces). -/
def isConfigErrorResult : Except ZoneLimitErr (List ℤ) → Bool
  | Except.error ZoneLimitErr.ratioSumNotOne => true
  | Except.error ZoneLimitErr.notEnoughSurfaces => true
  | _ => false

/-- The inner bin-accumulation loop of CalculateZoneLimits: starting from the
current bin and its running sum, add bins while the cumulative share is below
the target, capping at bin 255 ("stop so we don't get out of range").  Fuel
257 always suffices since the bin index strictly increases and is capped. -/
def zoneAccumBins (hist : List ℕ) (allPixels r : ℚ) :
    ℕ → ℤ → ℚ → ℤ × ℚ
  | 0, currentBin, binSum => (currentBin, binSum)
  | fuel + 1, currentBin, binSum =>
    if binSum / allPixels < r then
      let nb := currentBin + 1
      if nb > 255 then (nb - 1, binSum)
      else zoneAccumBins hist allPixels r fuel nb (binSum + (hist.getD nb.toNat 0 : ℚ))
    else (currentBin, binSum)

/-- The per-ratio loop of CalculateZoneLimits.  Each step reads
hist[currentBin] (an out-of-range panic in Go when currentBin has run past
255, modelled as the error case), accumulates bins, chooses between the
undershooting and overshooting bin by which cumulative share is closer, and
stores uint8(currentBin) — the two's-complement low byte, emod 256, which is
how uint8(-1) becomes 255. -/
def zoneLimitsLoop (hist : List ℕ) (allPixels : ℚ) :
    List ℚ → ℤ → Except ZoneLimitErr (List ℤ)
  | [], _ => Except.ok []
  | r :: rest, currentBin =>
    if currentBin > 255 then Except.error ZoneLimitErr.histIndexOutOfRange
    else
      let bs0 : ℚ := (hist.getD currentBin.toNat 0 : ℚ)
      let acc := zoneAccumBins hist allPixels r 257 currentBin bs0
      let cb1 := acc.1
      let binSum := acc.2
      let previousSum := binSum - (hist.getD cb1.toNat 0 : ℚ)
      let cb2 := if |previousSum / allPixels - r| ≤ |binSum / allPixels - r| then
        cb1 - 1 else cb1
      match zoneLimitsLoop hist allPixels rest (cb2 + 1) with
      | Except.error e => Except.error e
      | Except.ok tail => Except.ok (cb2.emod 256 :: tail)

/-- RandomWorld.CalculateZoneLimits: validate that the ratios sum to 1 within
1e-14 and do not outnumber the defined surfaces (panicking — ConfigError —
otherwise), run the per-ratio bin accumulation, and force the final limit to
255. -/
def CalculateZoneLimits (width height : ℤ) (hist : List ℕ) (rs : List ℚ) :
    Except ZoneLimitErr (List ℤ) :=
  let binSum := rs.sum
  if binSum > 1 + 1 / 100000000000000 ∨ binSum < 1 - 1 / 100000000000000 then
    Except.error ZoneLimitErr.ratioSumNotOne
  else if Surfaces.length < rs.length then
    Except.error ZoneLimitErr.notEnoughSurfaces
  else
    match zoneLimitsLoop hist ((width * height : ℤ) : ℚ) rs 0 with
    | Except.error e => Except.error e
    | Except.ok limits => Except.ok (limits.set (limits.length - 1) 255)

/-- A list of zone limits is non-decreasing. -/
def zoneLimitsNonDecr : List ℤ → Bool
  | [] => true
  | [_] => true
  | a :: b :: rest => a ≤ b && zoneLimitsNonDecr (b :: rest)

/-- A node of the A* search (pathing.aStarNode).  Go links nodes through a
*aStarNode parent pointer; the embedding uses a nested inductive with an
Option parent. -/
inductive ANode : Type where
  | node (x y : ℤ) (nodeId : ℤ) (parent : Option ANode) (gScore fScore : ℚ) : ANode

instance : Inhabited ANode := ⟨ANode.node 0 0 0 none 0 0⟩

/-- The X coordinate of a node. -/
def ANode.x : ANode → ℤ
  | ANode.node x _ _ _ _ _ => x

/-- The Y coordinate of a node. -/
def ANode.y : ANode → ℤ
  | ANode.node _ y _ _ _ _ => y

/-- The id field of a node. -/
def ANode.nodeId : ANode → ℤ
  | ANode.node _ _ i _ _ _ => i

/-- The parent link of a node. -/
def ANode.parent : ANode → Option ANode
  | ANode.node _ _ _ p _ _ => p

/-- The gScore of a node. -/
def ANode.gScore : ANode → ℚ
  | ANode.node _ _ _ _ g _ => g

/-- The fScore of a node. -/
def ANode.fScore : ANode → ℚ
  | ANode.node _ _ _ _ _ f => f

/-- The grid location of a node. -/
def ANode.loc (n : ANode) : Location := ⟨n.x, n.y⟩

/-- aStarNode.calculateID: the row-major linear index Y*worldWidth + X.  The
package-global worldWidth is passed explicitly. -/
def nodeIdOf (worldWidth : ℤ) (n : ANode) : ℤ :=
  n.y * worldWidth + n.x

/-- Replace the id of a node (the assignment done by calculateID). -/
def ANode.withId (n : ANode) (i : ℤ) : ANode :=
  match n with
  | ANode.node x y _ p g f => ANode.node x y i p g f

/-- Replace the two scores of a node (what aStarQueue.update writes). -/
def ANode.withScores (n : ANode) (g f : ℚ) : ANode :=
  match n with
  | ANode.node x y i p _ _ => ANode.node x y i p g f

/-- aStarNode.PathNeighborCost: cost of entering the destination cell by
surface name, with a conservative default for unknown surfaces. -/
def PathNeighborCost (w : RandomWorld) (toN : ANode) : ℚ :=
  let surfaceName := w.GetSurfaceNameAt ⟨toN.x, toN.y⟩
  if surfaceName = "Grassland" then 1
  else if surfaceName = "Gravel" then 3/2
  else if surfaceName = "Forest" then 2
  else if surfaceName = "Mountain" then 5/2
  else 3

/-- aStarNode.PathEstimatedCost: squared Euclidean distance (the source
deliberately omits the square root). -/
def PathEstimatedCost (n toN : ANode) : ℚ :=
  (((toN.x - n.x : ℤ) : ℚ)) ^ 2 + (((toN.y - n.y : ℤ) : ℚ)) ^ 2

/-- aStarNode.PathNeighbors: the 8-neighbours that are habitable and free of
beings (IsHabitable is false out of bounds, so all results are in bounds).
Fresh nodes carry zero scores and no parent, as in the Go literal. -/
def PathNeighbors (n : ANode) (w : RandomWorld) : List ANode :=
  directions8.filterMap (fun offset =>
    let newX := n.x + offset.X
    let newY := n.y + offset.Y
    let newLocation : Location := ⟨newX, newY⟩
    let occupyingBeing := w.GetBeingAt newLocation
    let habitable := w.IsHabitable newLocation
    if habitable && occupyingBeing = none then
      some (ANode.node newX newY 0 none 0 0)
    else none)

/-- The A* priority queue (pathing.aStarQueue): a binary min-heap over fScore
in a nodes array plus an id-to-index map. -/
structure AStarQueue where
  indexOf : List (ℤ × ℕ)
  nodes : List ANode

/-- Integer-keyed association lookup for the indexOf map. -/
def alzLookup (k : ℤ) : List (ℤ × ℕ) → Option ℕ
  | [] => none
  | (k2, v) :: rest => if k2 = k then some v else alzLookup k rest

/-- Integer-keyed association write for the indexOf map. -/
def alzSet (k : ℤ) (v : ℕ) (l : List (ℤ × ℕ)) : List (ℤ × ℕ) :=
  (k, v) :: l.filter (fun p => p.1 != k)

/-- Integer-keyed association deletion for the indexOf map. -/
def alzDelete (k : ℤ) (l : List (ℤ × ℕ)) : List (ℤ × ℕ) :=
  l.filter (fun p => p.1 != k)

/-- aStarQueue.Less: strict comparison of fScores. -/
def qLess (q : AStarQueue) (i j : ℕ) : Bool :=
  (q.nodes.getD i default).fScore < (q.nodes.getD j default).fScore

/-- aStarQueue.Swap: exchange two heap slots, updating indexOf first from the
pre-swap ids, exactly as the Go method does.  Guarded to in-range indices
(container/heap only ever swaps valid indices; Go would panic otherwise). -/
def qSwap (q : AStarQueue) (i j : ℕ) : AStarQueue :=
  if i < q.nodes.length ∧ j < q.nodes.length then
    let ni := q.nodes.getD i default
    let nj := q.nodes.getD j default
    { indexOf := alzSet nj.nodeId i (alzSet ni.nodeId j q.indexOf),
      nodes := (q.nodes.set i nj).set j ni }
  else q

/-- container/heap's up: sift a slot toward the root while it is strictly
smaller than its parent.  Fuel bounds the walk (the index strictly
decreases). -/
def heapUp (fuel : ℕ) (q : AStarQueue) (j : ℕ) : AStarQueue :=
  match fuel with
  | 0 => q
  | fuel + 1 =>
    let i := (j - 1) / 2
    if i = j ∨ ¬ qLess q j i then q
    else heapUp fuel (qSwap q i j) i

/-- container/heap's down: sift slot i0 toward the leaves within the first n
slots; returns the queue and whether the slot moved.  Fuel bounds the walk
(the index at least doubles each step). -/
def heapDown (fuel : ℕ) (q : AStarQueue) (i0 i n : ℕ) : AStarQueue × Bool :=
  match fuel with
  | 0 => (q, i > i0)
  | fuel + 1 =>
    let j1 := 2 * i + 1
    if j1 ≥ n then (q, i > i0)
    else
      let j2 := j1 + 1
      let j := if j2 < n ∧ qLess q j2 j1 then j2 else j1
      if ¬ qLess q j i then (q, i > i0)
      else heapDown fuel (qSwap q i j) i0 j n

/-- aStarQueue.Push (the raw append; heap.Push wraps it with up). -/
def qPush (q : AStarQueue) (n : ANode) : AStarQueue :=
  { indexOf := alzSet n.nodeId q.nodes.length q.indexOf,
    nodes := q.nodes ++ [n] }

/-- aStarQueue.Pop (the raw removal of the last slot; heap.Pop wraps it). -/
def qPop (q : AStarQueue) : ANode × AStarQueue :=
  let n := q.nodes.getLastD default
  (n, { indexOf := alzDelete n.nodeId q.indexOf, nodes := q.nodes.dropLast })

/-- heap.Push: append then sift up from the last slot. -/
def heapPush (q : AStarQueue) (n : ANode) : AStarQueue :=
  let q1 := qPush q n
  heapUp (q1.nodes.length + 1) q1 (q1.nodes.length - 1)

/-- heap.Pop: swap the root with the last slot, sift the root down over the
first n-1 slots, then remove the last slot. -/
def heapPop (q : AStarQueue) : ANode × AStarQueue :=
  let n := q.nodes.length - 1
  let q1 := qSwap q 0 n
  let q2 := (heapDown (q1.nodes.length + 1) q1 0 0 n).1
  qPop q2

/-- heap.Fix: sift down, and if the slot did not move sift it up. -/
def heapFix (q : AStarQueue) (i : ℕ) : AStarQueue :=
  let d := heapDown (q.nodes.length + 1) q i i q.nodes.length
  if d.2 then d.1 else heapUp (q.nodes.length + 1) d.1 i

/-- aStarQueue.node: look up a queued node by id. -/
def qNode (q : AStarQueue) (i : ℤ) : Option ANode :=
  match alzLookup i q.indexOf with
  | some loc => some (q.nodes.getD loc default)
  | none => none

/-- aStarQueue.update: overwrite the scores of the slot indexOf points at and
re-establish the heap with Fix.  Note the Go caller first assigns
existingNeighbour.parent on a by-value copy obtained from node(), so the
parent of the queued node is NOT changed — only the two scores are, which
this mirrors. -/
def qUpdate (q : AStarQueue) (i : ℤ) (g f : ℚ) : AStarQueue :=
  match alzLookup i q.indexOf with
  | none => q
  | some loc =>
    if loc < q.nodes.length then
      let q1 := { q with nodes := q.nodes.set loc ((q.nodes.getD loc default).withScores g f) }
      heapFix q1 loc
    else q

/-- The parent-link chain from a node back to the search root, the node
itself first (the reconstruction walk "for ancestor != nil"). -/
def ANode.chain : ANode → List ANode
  | ANode.node x y i none g f => [ANode.node x y i none g f]
  | ANode.node x y i (some p) g f => ANode.node x y i (some p) g f :: ANode.chain p

/-- The neighbour-expansion loop body of astar: for each neighbour, compute
its id, skip it when closed, and either push it with the popped node as
parent or improve the scores of its queued entry when this path is strictly
cheaper. -/
def expandNeighbors (w : RandomWorld) (worldWidth : ℤ) (toN cur : ANode)
    (closedList : List ℤ) : List ANode → AStarQueue → AStarQueue
  | [], q => q
  | nb :: rest, q =>
    let nb := nb.withId (nodeIdOf worldWidth nb)
    if closedList.contains nb.nodeId then
      expandNeighbors w worldWidth toN cur closedList rest q
    else
      let neighbourG := cur.gScore + PathNeighborCost w nb
      let neighbourH := PathEstimatedCost nb toN
      let neighbourF := neighbourG + neighbourH
      match qNode q nb.nodeId with
      | none =>
        expandNeighbors w worldWidth toN cur closedList rest
          (heapPush q (ANode.node nb.x nb.y nb.nodeId (some cur) neighbourG neighbourF))
      | some existingNeighbour =>
        if neighbourG < existingNeighbour.gScore then
          expandNeighbors w worldWidth toN cur closedList rest
            (qUpdate q existingNeighbour.nodeId neighbourG neighbourF)
        else
          expandNeighbors w worldWidth toN cur closedList rest q

/-- The main loop of astar: pop the cheapest open node, close it, stop when it
is the goal (returning the parent chain, goal first, and its gScore), else
expand its neighbours.  Fuel replaces Go's unbounded for; each iteration pops
one node and every node enters the open list at most once, so any fuel above
the cell count suffices — fuel exhaustion is an unreachable "not found". -/
def astarLoop (w : RandomWorld) (worldWidth : ℤ) (toN : ANode) :
    ℕ → AStarQueue → List ℤ → Option (List ANode × ℚ)
  | 0, _, _ => none
  | fuel + 1, openList, closedList =>
    if openList.nodes.length = 0 then none
    else
      let pr := heapPop openList
      let currentNode := pr.1
      let openList := pr.2
      let closedList := currentNode.nodeId :: closedList
      if currentNode.nodeId = toN.nodeId then
        some (currentNode.chain, currentNode.gScore)
      else
        astarLoop w worldWidth toN fuel
          (expandNeighbors w worldWidth toN currentNode closedList
            (PathNeighbors currentNode w) openList)
          closedList

/-- pathing.astar: compute ids for both endpoints, seed the open list with the
source and run the loop.  The returned path is in reverse order, goal first,
source last. -/
def astar (fromN toN : ANode) (w : RandomWorld) : Option (List ANode × ℚ) :=
  let worldWidth := w.Width
  let fromN := fromN.withId (nodeIdOf worldWidth fromN)
  let toN := toN.withId (nodeIdOf worldWidth toN)
  astarLoop w worldWidth toN (w.Width.toNat * w.Height.toNat + 2)
    (heapPush ⟨[], []⟩ fromN) []

/-- AStar.GetPath: refuse an inhabitable or occupied goal with an empty path,
run astar, return an empty path when nothing was found, else the node list
reversed into locations (source first, goal last). -/
def GetPath (w : RandomWorld) (fromL toL : Location) : List Location :=
  let toHab := w.IsHabitable toL
  let toOccupied := w.GetBeingAt toL
  if ¬ toHab ∨ toOccupied ≠ none then []
  else
    let fromSpot : ANode := ANode.node fromL.X fromL.Y 0 none 0 0
    let toSpot : ANode := ANode.node toL.X toL.Y 0 none 0 0
    match astar fromSpot toSpot w with
    | none => []
    | some pr => (pr.1.map ANode.loc).reverse

/-- An attribute range (terrain.attributeRange): minimum and maximum of an
attribute, used for sampling and clamping. -/
structure attributeRange where
  Min : ℚ
  Max : ℚ
deriving DecidableEq, Repr

/-- hungerRange from terrain.go. -/
def hungerRange : attributeRange := ⟨0, 255⟩

/-- thirstRange from terrain.go. -/
def thirstRange : attributeRange := ⟨0, 255⟩

/-- wantsChildRange from terrain.go. -/
def wantsChildRange : attributeRange := ⟨0, 255⟩

/-- lifeExpectancyRange from terrain.go. -/
def lifeExpectancyRange : attributeRange := ⟨1, 64⟩

/-- visionRange from terrain.go. -/
def visionRange : attributeRange := ⟨1, 64⟩

/-- speedRange from terrain.go. -/
def speedRange : attributeRange := ⟨1, 16⟩

/-- durabilityRange from terrain.go. -/
def durabilityRange : attributeRange := ⟨0, 255⟩

/-- stressRange from terrain.go. -/
def stressRange : attributeRange := ⟨0, 255⟩

/-- sizeRange from terrain.go. -/
def sizeRange : attributeRange := ⟨0, 64⟩

/-- fertilityRange from terrain.go. -/
def fertilityRange : attributeRange := ⟨0, 4⟩

/-- mutationRange from terrain.go. -/
def mutationRange : attributeRange := ⟨0, 31⟩

/-- growthRange from terrain.go. -/
def growthRange : attributeRange := ⟨0, 15⟩

/-- nutritionRange from terrain.go. -/
def nutritionRange : attributeRange := ⟨0, 128⟩

/-- tasteRange from terrain.go. -/
def tasteRange : attributeRange := ⟨0, 255⟩

/-- stageRange from terrain.go. -/
def stageRange : attributeRange := ⟨0, 3⟩

/-- stageProgressRange from terrain.go. -/
def stageProgressRange : attributeRange := ⟨0, 255⟩

/-- areaRange from terrain.go. -/
def areaRange : attributeRange := ⟨4, 32⟩

/-- seedRange from terrain.go. -/
def seedRange : attributeRange := ⟨3, 8⟩

/-- witherRange from terrain.go. -/
def witherRange : attributeRange := ⟨1, 256⟩

/-- disperseRange from terrain.go. -/
def disperseRange : attributeRange := ⟨1, 8⟩

/-- hungerThreshold from terrain.go. -/
def hungerThreshold : ℚ := 150

/-- stressThreshold from terrain.go. -/
def stressThreshold : ℚ := 175

/-- hungerIncrease from terrain.go (0.2). -/
def hungerIncrease : ℚ := 1/5

/-- thirstIncrease from terrain.go (0.3). -/
def thirstIncrease : ℚ := 3/10

/-- wantsChildIncrease from terrain.go (0.05). -/
def wantsChildIncrease : ℚ := 1/20

/-- Explicit randomness: a stream of naturals standing for the rand.Intn
draws and a stream of rationals standing for the rand.Float64 /
rand.NormFloat64 draws.  Theorems quantify over both streams. -/
structure Rng where
  ints : List ℕ
  floats : List ℚ
deriving DecidableEq, Repr

/-- Model of rand.Intn n: an arbitrary value of [0, n), obtained from the
next stream element modulo the bound.  Quantifying over the stream covers
exactly the values Go can draw.  (Go panics when n ≤ 0; the max guard keeps
the model total, and no claim exercises that case.) -/
def Rng.nextInt (r : Rng) (n : ℤ) : ℤ × Rng :=
  (((r.ints.headD 0 : ℤ)).emod (max n 1), { r with ints := r.ints.tail })

/-- Model of rand.Float64 / rand.NormFloat64: the next rational of the float
stream. -/
def Rng.nextFloat (r : Rng) : ℚ × Rng :=
  (r.floats.headD 0, { r with floats := r.floats.tail })

/-- attributeRange.randomFloat: rand.Float64()*Max + Min. -/
def attributeRange.randomFloat (r : attributeRange) (rng : Rng) : ℚ × Rng :=
  let d := rng.nextFloat
  (d.1 * r.Max + r.Min, d.2)

/-- MutateValue from terrain.go: perturb the parent value by
NormFloat64()*mutationRate and clamp to the range. -/
def MutateValue (parentAttribute mutationRate : ℚ) (valueRange : attributeRange)
    (rng : Rng) : ℚ × Rng :=
  let d := rng.nextFloat
  let modifier := d.1 * mutationRate
  let v := parentAttribute + modifier
  let v := if v < valueRange.Min then valueRange.Min
    else if v > valueRange.Max then valueRange.Max else v
  (v, d.2)

/-- MutateValues from terrain.go: order the two parent values, draw a
NormFloat64()*mutationRate multiplier, form (Float64()*high + low) *
multiplier, and clamp to the range. -/
def MutateValues (value1 value2 mutationRate : ℚ) (valueRange : attributeRange)
    (rng : Rng) : ℚ × Rng :=
  let lohi := if value1 > value2 then (value2, value1) else (value1, value2)
  let low := lohi.1
  let high := lohi.2
  let d1 := rng.nextFloat
  let multiplier := d1.1 * mutationRate
  let d2 := d1.2.nextFloat
  let newValue := (d2.1 * high + low) * multiplier
  let newValue := if newValue < valueRange.Min then valueRange.Min
    else if newValue > valueRange.Max then valueRange.Max else newValue
  (newValue, d2.2)

/-- RandomWorld.MoveBeingToLocation: clear the being's old cell, write its id
into the target cell, update its position.  The source performs no validity
check (the habitability check is commented out in terrain.go). -/
def MoveBeingToLocation (w : RandomWorld) (b : Being) (toL : Location) :
    Being × RandomWorld :=
  let w1 := w.setSpot b.Position { w.spotAt b.Position with Being := none }
  let w2 := w1.setSpot toL { w1.spotAt toL with Being := some b.ID }
  ({ b with Position := toL }, w2)

/-- RandomWorld.QuenchThirst: drink when one of the eight neighbouring cells
(checked in order with manual bounds tests) is Water; drinking resets thirst
to zero. -/
def QuenchThirst (w : RandomWorld) (b : Being) : Bool × Being :=
  let drank := directions8.any (fun d =>
    if b.Position.X + d.X < 0 ∨ b.Position.X + d.X ≥ w.Width ∨
       b.Position.Y + d.Y < 0 ∨ b.Position.Y + d.Y ≥ w.Height then false
    else (surfaceOf (w.spotAt ⟨b.Position.X + d.X, b.Position.Y + d.Y⟩)).CommonName
      = "Water")
  (drank, if drank then { b with Thirst := 0 } else b)

/-- RandomWorld.updatePlantSpot: write the plant id (or none) into the center
cell's Object field and into the OccupyingPlant field of every cell of the
midpoint circle of radius diameter/2 around the center. -/
def updatePlantSpot (w : RandomWorld) (x y : ℤ) (plantDiameter : ℚ)
    (plantId : Option ℕ) : RandomWorld :=
  let w1 := w.setSpot ⟨x, y⟩ { w.spotAt ⟨x, y⟩ with Object := plantId }
  let circleSpots := w1.MidpointCircleAt ⟨x, y⟩ (plantDiameter / 2)
  circleSpots.foldl
    (fun wa spot => wa.setSpot spot { wa.spotAt spot with OccupyingPlant := plantId }) w1

/-- RandomWorld.canPlacePlant: habitable center, unoccupied center, and no
cell of the footprint circle occupied by a plant. -/
def RandomWorld.canPlacePlant (w : RandomWorld) (x y : ℤ) (plantArea : ℚ) : Bool :=
  if (surfaceOf (w.spotAt ⟨x, y⟩)).Habitable then
    if (w.spotAt ⟨x, y⟩).OccupyingPlant = none then
      (w.MidpointCircleAt ⟨x, y⟩ (plantArea / 2)).all
        (fun spot => (w.spotAt spot).OccupyingPlant = none)
    else false
  else false

/-- RandomWorld.canPlaceWaterPlant: like canPlacePlant but on Water, skipping
non-water footprint cells, and tolerant of the plant's own id.  The inner
occupancy test reads the center cell's OccupyingPlant (a quirk of the source,
mirrored as written). -/
def RandomWorld.canPlaceWaterPlant (w : RandomWorld) (x y : ℤ) (plantArea : ℚ)
    (plantID : ℕ) : Bool :=
  if (surfaceOf (w.spotAt ⟨x, y⟩)).CommonName ≠ "Water" then false
  else if (w.spotAt ⟨x, y⟩).OccupyingPlant = none ∨
      (w.spotAt ⟨x, y⟩).OccupyingPlant = some plantID then
    (w.MidpointCircleAt ⟨x, y⟩ (plantArea / 2)).all (fun spot =>
      if (surfaceOf (w.spotAt spot)).CommonName ≠ "Water" then true
      else ¬ ((w.spotAt spot).OccupyingPlant ≠ none ∧
        (w.spotAt ⟨x, y⟩).OccupyingPlant ≠ some plantID))
  else false

/-- RandomWorld.QuenchHunger: when the food spot is adjacent (Distance < 2,
equivalently DistanceSq < 4), either eat the being standing there (carnivore
or flying eater: hunger falls by 4x the prey's size, the prey is removed from
the registry and the cell) or eat the plant there (hunger falls by its
nutritional value, the plant is removed from the registry, its center Object
cleared and its footprint freed); hunger is floored at zero. -/
def QuenchHunger (w : RandomWorld) (b : Being) (foodSpot : Location) :
    Bool × Being × RandomWorld :=
  if DistanceSq b.Position foodSpot < 4 then
    if (w.spotAt foodSpot).Being ≠ none ∧
        (b.TypeTag = "Carnivore" ∨ b.TypeTag = "Flying") then
      let beingID := (w.spotAt foodSpot).Being.getD 0
      let beingToEat := (alLookup beingID w.BeingList).getD default
      let b1 := { b with Hunger := b.Hunger - beingToEat.Size * 4 }
      let w1 := { w with BeingList := alDelete beingID w.BeingList }
      let w2 := w1.setSpot foodSpot { w1.spotAt foodSpot with Being := none }
      let b2 := if b1.Hunger < 0 then { b1 with Hunger := 0 } else b1
      (true, b2, w2)
    else
      match (w.spotAt foodSpot).Object with
      | none => (false, b, w)
      | some foodID =>
        match alLookup foodID w.FoodList with
        | none => (false, b, w)
        | some food =>
          let b1 := { b with Hunger := b.Hunger - food.NutritionalValue }
          let w1 := { w with FoodList := alDelete food.ID w.FoodList }
          let w2 := w1.setSpot food.Position
            { w1.spotAt food.Position with Object := none }
          let w3 := updatePlantSpot w2 food.Position.X food.Position.Y food.Area none
          let b2 := if b1.Hunger < 0 then { b1 with Hunger := 0 } else b1
          (true, b2, w3)
  else (false, b, w)

/-- RandomWorld.AdjustStressFor: recompute stress from the three needs,
doubled outside the natural habitat, damped with size, clamped at 255. -/
def AdjustStressFor (w : RandomWorld) (b : Being) : Being :=
  let feelsSafe : ℚ :=
    if (surfaceOf (w.spotAt b.Position)).ID ≠ b.Habitat then 2 else 1
  let c : ℚ := 1 / 6
  let sizeC : ℚ := 1 - b.Size / (sizeRange.Max * (11/10))
  let stress := feelsSafe * c * (b.Thirst + b.Hunger + b.WantsChild) * sizeC
  { b with Stress := if stress > 255 then 255 else stress }

/-- RandomWorld.AdjustNeeds: raise hunger, thirst and want-child by their base
rates scaled by the durability/speed/stress/size multiplier; water beings'
thirst is frozen on water and doubled off it. -/
def AdjustNeeds (w : RandomWorld) (b : Being) : Being :=
  let durableC := 1 - b.Durability / (durabilityRange.Max * (143/100))
  let speedC := 1 + b.Speed / speedRange.Max
  let stressC := 1 + b.Stress / stressRange.Max
  let sizeC := 1 + b.Size / sizeRange.Max
  let multiplier := durableC * speedC * stressC * sizeC
  let b1 := { b with Hunger := b.Hunger + hungerIncrease * multiplier }
  let beingSurface := w.GetSurfaceNameAt b1.Position
  let b2 :=
    if b1.TypeTag = "Water" ∧ beingSurface ≠ "Water" then
      { b1 with Thirst := b1.Thirst + thirstIncrease * multiplier * 2 }
    else if b1.TypeTag ≠ "Water" then
      { b1 with Thirst := b1.Thirst + thirstIncrease * multiplier }
    else b1
  { b2 with WantsChild := b2.WantsChild + wantsChildIncrease }

/-- The partner scan of RandomWorld.MateBeing: the first being on an
in-bounds adjacent cell (directions8 order) whose gender differs from the
initiator's.  The source checks gender only — not the species. -/
def mateScan (w : RandomWorld) (b : Being) : List Location → Option Being
  | [] => none
  | direction :: rest =>
    let adjacentSpot : Location :=
      ⟨b.Position.X + direction.X, b.Position.Y + direction.Y⟩
    if ¬ w.IsOutOfBounds adjacentSpot then
      match (w.spotAt adjacentSpot).Being with
      | some beingID =>
        if ((alLookup beingID w.BeingList).getD default).Gender ≠ b.Gender then
          some ((alLookup beingID w.BeingList).getD default)
        else mateScan w b rest
      | none => mateScan w b rest
    else mateScan w b rest

/-- The partner chosen by RandomWorld.MateBeing for the initiator, if any. -/
def matePartnerFor (w : RandomWorld) (b : Being) : Option Being :=
  mateScan w b directions8

/-- Creation of one offspring in MateBeing: every trait is a mutated blend of
both parents' values (MutateValues, in source order), the gender a fresh coin
flip, habitat, type and position from the initiator and the chosen cell. -/
def mateBabyAt (b other : Being) (adjacentSpot : Location) (babyId : ℕ)
    (rng : Rng) : Being × Rng :=
  let m1 := MutateValues b.Hunger other.Hunger b.MutationRate hungerRange rng
  let m2 := MutateValues b.Thirst other.Thirst b.MutationRate thirstRange m1.2
  let m3 := MutateValues b.WantsChild other.WantsChild b.MutationRate wantsChildRange m2.2
  let m4 := MutateValues b.LifeExpectancy other.LifeExpectancy b.MutationRate
    lifeExpectancyRange m3.2
  let m5 := MutateValues b.VisionRange other.VisionRange b.MutationRate visionRange m4.2
  let m6 := MutateValues b.Speed other.Speed b.MutationRate speedRange m5.2
  let m7 := MutateValues b.Durability other.Durability b.MutationRate durabilityRange m6.2
  let m8 := MutateValues b.Stress other.Stress b.MutationRate stressRange m7.2
  let dg := m8.2.nextInt 2
  let gender := if dg.1 > 0 then "female" else "male"
  let m9 := MutateValues b.Size other.Size b.MutationRate sizeRange dg.2
  let m10 := MutateValues b.Fertility other.Fertility b.MutationRate fertilityRange m9.2
  let m11 := MutateValues b.MutationRate other.MutationRate b.MutationRate mutationRange m10.2
  (⟨babyId, m1.1, m2.1, m3.1, m4.1, m5.1, m6.1, m7.1, m8.1, b.Habitat, gender,
    m9.1, m10.1, m11.1, adjacentSpot, b.TypeTag⟩, m11.2)

/-- Mutable state threaded through the baby-placement loops of MateBeing. -/
structure MateState where
  world : RandomWorld
  rng : Rng
  fresh : List ℕ
  babyIDs : List ℕ
  babyHasSpot : Bool

/-- The inner direction loop of MateBeing: for every in-bounds adjacent cell
that canPlaceBeing accepts, create a baby there, register it on the grid and
in the registry, and record its id (the Go loop has no break, so one fertility
round can fill several cells). -/
def mateOneRound (b other : Being) : List Location → MateState → MateState
  | [], st => st
  | direction :: rest, st =>
    let adjacentSpot : Location :=
      ⟨b.Position.X + direction.X, b.Position.Y + direction.Y⟩
    if st.world.IsOutOfBounds adjacentSpot then mateOneRound b other rest st
    else if st.world.canPlaceBeing adjacentSpot b.TypeTag then
      let babyId := st.fresh.headD 0
      let pr := mateBabyAt b other adjacentSpot babyId st.rng
      let baby := pr.1
      let w1 := st.world.setSpot adjacentSpot
        { st.world.spotAt adjacentSpot with Being := some baby.ID }
      let w2 := { w1 with BeingList := alSet baby.ID baby w1.BeingList }
      mateOneRound b other rest
        { world := w2, rng := pr.2, fresh := st.fresh.tail,
          babyIDs := st.babyIDs ++ [baby.ID], babyHasSpot := true }
    else mateOneRound b other rest st

/-- The outer fertility loop of MateBeing: repeat the direction loop up to
the brood size, stopping early when a round places no baby. -/
def mateRounds (b other : Being) : ℕ → MateState → MateState
  | 0, st => st
  | n + 1, st =>
    let st1 := mateOneRound b other directions8 { st with babyHasSpot := false }
    if st1.babyHasSpot then mateRounds b other n st1 else st1

/-- RandomWorld.MateBeing: find an adjacent opposite-gender partner, derive
the brood size from a mutated blend of both parents' fertility, place the
offspring on free adjacent cells, and reset both parents' want-child when at
least one offspring was placed.  Returns the new ids, the updated initiator,
and the updated world (the partner's reset is written into the registry, as
the Go pointer write does). -/
def MateBeing (w : RandomWorld) (b : Being) (rng : Rng) (fresh : List ℕ) :
    List ℕ × Being × RandomWorld × Rng × List ℕ :=
  match matePartnerFor w b with
  | none => ([], b, w, rng, fresh)
  | some otherBeing =>
    let mv := MutateValues b.Fertility otherBeing.Fertility b.MutationRate
      fertilityRange rng
    let babiesToMake := goInt mv.1
    let st := mateRounds b otherBeing (max babiesToMake 0).toNat
      { world := w, rng := mv.2, fresh := fresh, babyIDs := [], babyHasSpot := false }
    if st.babyIDs.length > 0 then
      let b1 := { b with WantsChild := 0 }
      let other1 := { otherBeing with WantsChild := 0 }
      let w1 := { st.world with BeingList := alSet other1.ID other1 st.world.BeingList }
      (st.babyIDs, b1, w1, st.rng, st.fresh)
    else (st.babyIDs, b, st.world, st.rng, st.fresh)

/-- The fold state of the target scan in SenseActionFor: the world (the scan
can clear a dangling food reference), the chosen spot, its metric, and
whether a spot has been chosen yet. -/
structure ScanState where
  world : RandomWorld
  chosenSpot : Location
  chosenMetric : ℚ
  spotUnset : Bool

/-- One step of the target scan of SenseActionFor, for one visible spot.
Distance-based metrics carry the squared distance (sqrt is monotone and the
source compares distances only with distances of the same scan).  The taste
and size metrics are the source's formulas verbatim: metrics of one scan all
live on the same scale because the hunger test is constant over the scan. -/
def scanStep (b : Being) (actionToDo : String) (st : ScanState) (spot : Location) :
    ScanState :=
  let w := st.world
  let spotSurface := w.GetSurfaceNameAt spot
  if actionToDo = "drink" then
    if spotSurface = "Water" then
      if st.spotUnset then
        { st with
            chosenSpot := spot
            chosenMetric := DistanceSq b.Position spot
            spotUnset := false }
      else
        let dist := DistanceSq b.Position spot
        if dist < st.chosenMetric then
          { st with chosenSpot := spot, chosenMetric := dist }
        else st
    else st
  else if actionToDo = "eat" then
    if (w.spotAt spot).Being = none ∧ b.TypeTag ≠ "Carnivore" then
      match (w.spotAt spot).Object with
      | none => st
      | some foodId =>
        match alLookup foodId w.FoodList with
        | none =>
          -- the FixME branch of the source: clear the dangling Object and move on
          { st with world := w.setSpot spot { w.spotAt spot with Object := none } }
        | some food =>
          if food.TypeTag = "Water" ∧ b.TypeTag ≠ "Water" then st
          else if b.TypeTag = "Water" ∧ food.TypeTag ≠ "Water" then st
          else
            let metric :=
              if b.Hunger ≥ hungerThreshold then DistanceSq b.Position spot
              else tasteRange.Max - food.Taste * food.GrowthStage / (growthRange.Max + 1)
            if st.spotUnset then
              { st with chosenSpot := spot, chosenMetric := metric, spotUnset := false }
            else if metric < st.chosenMetric then
              { st with chosenSpot := spot, chosenMetric := metric }
            else st
    else if b.TypeTag = "Carnivore" ∧ (w.spotAt spot).Being ≠ none then
      let preyId := (w.spotAt spot).Being.getD 0
      let prey := (alLookup preyId w.BeingList).getD default
      if spotSurface = "Forest" ∧ prey.TypeTag = "Flying" then st
      else if b.TypeTag = prey.TypeTag then st
      else
        let metric :=
          if b.Hunger ≥ hungerThreshold then DistanceSq b.Position spot else prey.Size
        if st.spotUnset then
          { st with chosenSpot := spot, chosenMetric := metric, spotUnset := false }
        else if metric > st.chosenMetric then
          { st with chosenSpot := spot, chosenMetric := metric }
        else st
    else if b.TypeTag = "Flying" then
      let preyId := (w.spotAt spot).Being.getD 0
      let prey := (alLookup preyId w.BeingList).getD default
      if spotSurface = "Forest" ∧ prey.TypeTag = "Flying" then st
      else if b.TypeTag = prey.TypeTag then st
      else if prey.Size ≤ b.Size / 2 then
        let conv := tasteRange.Max -
          (((prey.Size - sizeRange.Min) * (tasteRange.Max - tasteRange.Min)) /
            (sizeRange.Max - sizeRange.Min)) + tasteRange.Min
        let metric :=
          if b.Hunger ≥ hungerThreshold then DistanceSq b.Position spot else conv
        if st.spotUnset then
          { st with chosenSpot := spot, chosenMetric := metric, spotUnset := false }
        else if metric < st.chosenMetric then
          { st with chosenSpot := spot, chosenMetric := metric }
        else st
      else st
    else st
  else if actionToDo = "mate" then
    match (w.spotAt spot).Being with
    | none => st
    | some beingID =>
      let otherBeing := (alLookup beingID w.BeingList).getD default
      if otherBeing.Gender ≠ b.Gender ∧ otherBeing.TypeTag = b.TypeTag then
        if st.spotUnset then
          { st with
              chosenSpot := spot
              chosenMetric := DistanceSq b.Position spot
              spotUnset := false }
        else
          let dist := DistanceSq b.Position spot
          if dist < st.chosenMetric then
            { st with chosenSpot := spot, chosenMetric := dist }
          else st
      else st
  else st

/-- The adjacent-cell search after a drink (carnivore) or mate target: the
first in-bounds, habitable, unoccupied neighbour of the chosen spot. -/
def findFreeAdjacent (w : RandomWorld) (chosenSpot : Location) :
    List Location → Option Location
  | [] => none
  | direction :: rest =>
    let adjacentSpot : Location :=
      ⟨chosenSpot.X + direction.X, chosenSpot.Y + direction.Y⟩
    if ¬ w.IsOutOfBounds adjacentSpot then
      if (surfaceOf (w.spotAt adjacentSpot)).Habitable ∧
          (w.spotAt adjacentSpot).Being = none then
        some adjacentSpot
      else findFreeAdjacent w chosenSpot rest
    else findFreeAdjacent w chosenSpot rest

/-- Flags accumulated by the predator/safe-spot scan of the wander branch. -/
structure WanderScan where
  safeSpot : Location
  safeSpotFound : Bool
  hideFromPredator : Bool
  predatorSpot : Location

/-- The predator/safe-spot scan of the wander branch: remember the last seen
predator (different species, carnivore, or flying and more than double size)
and the last safe habitat cell; break — returning the safe spot as the chosen
one — as soon as both are known. -/
def predatorScan (w : RandomWorld) (b : Being) :
    List Location → WanderScan → Option Location × WanderScan
  | [], st => (none, st)
  | spot :: rest, st =>
    let possiblePredatorID := w.GetBeingAt spot
    let st1 :=
      match possiblePredatorID with
      | some pid =>
        let predator := (alLookup pid w.BeingList).getD default
        if predator.TypeTag ≠ b.TypeTag ∧
            (predator.TypeTag = "Carnivore" ∨
              (predator.TypeTag = "Flying" ∧ predator.Size > 2 * b.Size)) then
          { st with hideFromPredator := true, predatorSpot := spot }
        else st
      | none =>
        if (surfaceOf (w.spotAt spot)).ID = b.Habitat then
          { st with safeSpot := spot, safeSpotFound := true }
        else st
    if st1.hideFromPredator ∧ st1.safeSpotFound then (some st1.safeSpot, st1)
    else predatorScan w b rest st1

/-- Go's int(math.Sqrt(q)) for a nonnegative rational: the integer square
root of the floor (equal since k ≤ sqrt q iff k*k ≤ floor q for natural k).
The negative case is unreachable at the call site. -/
def intSqrtQ (q : ℚ) : ℤ :=
  if 0 ≤ q then (Nat.sqrt q.floor.toNat : ℤ) else 0

/-- The random-destination loop of the wander branch: repeatedly draw an
unvisited index, remove it, give up when the pool empties right after the
removal, and accept the drawn spot when canPlaceBeing allows it. -/
def randomPickLoop (w : RandomWorld) (b : Being) (surroundings : List Location) :
    ℕ → List ℕ → Rng → Bool × ℕ × Rng
  | 0, _, rng => (false, 0, rng)
  | fuel + 1, unvisited, rng =>
    if unvisited.length = 0 then (false, 0, rng)
    else
      let d := rng.nextInt unvisited.length
      let rnd := d.1.toNat
      let spotIdx := unvisited.getD rnd 0
      let unvisited2 := (unvisited.set rnd (unvisited.getLastD 0)).dropLast
      if unvisited2.length = 0 then (false, spotIdx, d.2)
      else if w.canPlaceBeing (surroundings.getD spotIdx ⟨0, 0⟩) b.TypeTag then
        (true, spotIdx, d.2)
      else randomPickLoop w b surroundings fuel unvisited2 d.2

/-- The wander branch of SenseActionFor: scan for predators and safe habitat
cells; flee a visible predator toward a safe spot, or away from its bearing
(only when both quantized deltas are nonzero — with an axis-aligned predator
the chosen spot silently keeps its prior value, the zero location when no
target was ever set); with no predator, draw random visible cells until a
placeable one is found, overriding with the safe spot under high stress. -/
def senseWander (w : RandomWorld) (b : Being) (surroundings : List Location)
    (chosen0 : Location) (rng : Rng) : String × Location × Being × RandomWorld × Rng :=
  let ps := predatorScan w b surroundings ⟨⟨0, 0⟩, false, false, ⟨0, 0⟩⟩
  match ps.1 with
  | some safe => ("wander", safe, b, w, rng)
  | none =>
    let st := ps.2
    if st.hideFromPredator ∧ ¬ st.safeSpotFound then
      let predatorDeltaX0 := st.predatorSpot.X - b.Position.X
      let predatorDeltaY0 := st.predatorSpot.Y - b.Position.Y
      let dX : ℤ := if predatorDeltaX0 < 0 then -1
        else if predatorDeltaX0 > 0 then 1 else 0
      let dY : ℤ := if predatorDeltaY0 < 0 then -1
        else if predatorDeltaY0 > 0 then 1 else 0
      if dY ≠ 0 ∧ dX ≠ 0 then
        let dr := rng.nextInt (goInt b.Speed)
        let spotsToMoveX := dr.1
        let spotsToMoveY := intSqrtQ (b.Speed * b.Speed -
          ((spotsToMoveX : ℚ)) * ((spotsToMoveX : ℚ)))
        let cx0 := b.Position.X + (-dX * spotsToMoveX)
        let cy0 := b.Position.Y + (-dY * spotsToMoveY)
        let cx := if cx0 < 0 then 0 else if cx0 ≥ w.Width then w.Width - 1 else cx0
        let cy := if cy0 < 0 then 0 else if cy0 ≥ w.Height then w.Height - 1 else cy0
        ("wander", ⟨cx, cy⟩, b, w, dr.2)
      else
        ("wander", chosen0, b, w, rng)
    else if ¬ st.hideFromPredator then
      let d0 := rng.nextInt surroundings.length
      let pick := randomPickLoop w b surroundings (surroundings.length + 1)
        (List.range surroundings.length) d0.2
      if pick.1 then
        let cs := surroundings.getD pick.2.1 ⟨0, 0⟩
        let cs := if b.Stress ≥ stressThreshold ∧ st.safeSpotFound then st.safeSpot else cs
        ("wander", cs, b, w, pick.2.2)
      else ("wander", chosen0, b, w, pick.2.2)
    else
      -- hide and safeSpotFound together always exit through the in-loop break
      ("wander", st.safeSpot, b, w, rng)

/-- RandomWorld.SenseActionFor: choose the desired action from the three
needs (thirst before hunger before want-child, wander when the winner is not
positive), scan the visible disk for a target, fall back to wander when none
exists, redirect drink (carnivore) and mate targets to a free adjacent cell,
run the wander branch when wandering, and double a carnivore's speed when it
is about to hunt.  Returns the action, the chosen spot, the (possibly
speed-boosted) being, the (possibly cleaned) world and the remaining
randomness. -/
def SenseActionFor (w : RandomWorld) (b : Being) (rng : Rng) :
    String × Location × Being × RandomWorld × Rng :=
  let stressShare := 1 + b.Stress / stressRange.Max
  let surroundings := w.MidpointCircleAt b.Position (b.VisionRange * stressShare)
  let pre :=
    if b.Thirst ≥ b.Hunger then
      if b.Thirst ≥ b.WantsChild then ("drink", b.Thirst) else ("mate", b.WantsChild)
    else
      if b.Hunger ≥ b.WantsChild then ("eat", b.Hunger) else ("mate", b.WantsChild)
  let actionToDo := if pre.2 ≤ 0 then "wander" else pre.1
  let scan := surroundings.foldl (scanStep b actionToDo) ⟨w, ⟨0, 0⟩, 0, true⟩
  let w1 := scan.world
  let chosenSpot := scan.chosenSpot
  let actionToDo := if scan.spotUnset then "wander" else actionToDo
  if (b.TypeTag = "Carnivore" ∧ actionToDo = "drink") ∨ actionToDo = "mate" then
    match findFreeAdjacent w1 chosenSpot directions8 with
    | some adjacentSpot => (actionToDo, adjacentSpot, b, w1, rng)
    | none => senseWander w1 b surroundings chosenSpot rng
  else if actionToDo = "wander" then
    senseWander w1 b surroundings chosenSpot rng
  else
    let b2 := if actionToDo = "eat" ∧ b.TypeTag = "Carnivore" then
      { b with Speed := b.Speed * 2 } else b
    (actionToDo, chosenSpot, b2, w1, rng)

/-- The per-case result of the action switch in UpdateBeing: action name,
affected ids (uuid.Nil entries stay as none, as the source appends even a nil
OccupyingPlant), updated being and world, remaining randomness, and the
successfulHunt flag. -/
structure ActionResult where
  actionDone : String
  objectsAffected : List (Option ℕ)
  being : Being
  world : RandomWorld
  rng : Rng
  fresh : List ℕ
  successfulHunt : Bool

/-- RandomWorld.UpdateBeing: the per-epoch update of one being.  Death check
(life expectancy spent, or thirst/hunger at 255) removes it from the registry
and the grid; otherwise age it, sense the next action, ask the pathfinder for
a path (the interface passes an allowInhabitable flag, but the in-repo A*
implementation accepts only the two endpoints), execute the action — moving
all the way and acting when the path fits in the speed, else moving speed
cells — and finally refresh stress and needs.  A carnivore's speed, doubled
by the sense phase for a hunt, is halved back either after eating or, for a
failed hunt, after the needs update.  The updated being is written back to
the registry (pointer semantics of the Go map). -/
def UpdateBeing (w : RandomWorld) (b : Being) (rng : Rng) (fresh : List ℕ) :
    String × List (Option ℕ) × RandomWorld × Rng × List ℕ :=
  if b.LifeExpectancy ≤ 0 ∨ b.Thirst ≥ 255 ∨ b.Hunger ≥ 255 then
    let w1 := { w with BeingList := alDelete b.ID w.BeingList }
    let w2 := w1.setSpot b.Position { w1.spotAt b.Position with Being := none }
    ("died", [some b.ID], w2, rng, fresh)
  else
    let b0 := { b with LifeExpectancy := b.LifeExpectancy - 1 / 60 }
    let sr := SenseActionFor w b0 rng
    let actionToDo := sr.1
    let actionSpot := sr.2.1
    let b1 := sr.2.2.1
    let w1 := sr.2.2.2.1
    let rng1 := sr.2.2.2.2
    let pathToAction := GetPath w1 b1.Position actionSpot
    let res : ActionResult :=
      if actionToDo = "drink" then
        if goInt b1.Speed ≥ (pathToAction.length : ℤ) ∨ b1.TypeTag = "Water" then
          let mv := if pathToAction.length ≥ 1 then
              MoveBeingToLocation w1 b1 (pathToAction.getLastD ⟨0, 0⟩)
            else (b1, w1)
          let qt := QuenchThirst mv.2 mv.1
          ⟨"drank", [], qt.2, mv.2, rng1, fresh, false⟩
        else
          let mv := MoveBeingToLocation w1 b1
            (pathToAction.getD (goInt b1.Speed).toNat ⟨0, 0⟩)
          ⟨"drank", [], mv.1, mv.2, rng1, fresh, false⟩
      else if actionToDo = "eat" then
        if goInt b1.Speed ≥ (pathToAction.length : ℤ) then
          let mv := if pathToAction.length ≥ 1 then
              MoveBeingToLocation w1 b1 (pathToAction.getLastD ⟨0, 0⟩)
            else (b1, w1)
          let b2 := mv.1
          let w2 := mv.2
          let eatingBeing := (b2.TypeTag = "Flying" ∨ b2.TypeTag = "Carnivore") ∧
            (w2.spotAt actionSpot).Being ≠ none
          let affected : List (Option ℕ) :=
            if eatingBeing then [(w2.spotAt actionSpot).Being]
            else [(w2.spotAt actionSpot).OccupyingPlant]
          let named := if eatingBeing then "ate being" else "ate plant"
          let qh := QuenchHunger w2 b2 actionSpot
          let b3 := qh.2.1
          let w3 := qh.2.2
          let b4 := if b3.TypeTag = "Carnivore" then
              { b3 with Speed := b3.Speed / 2 } else b3
          let hunted := b3.TypeTag = "Carnivore"
          ⟨named, affected, b4, w3, rng1, fresh, hunted⟩
        else
          let mv := MoveBeingToLocation w1 b1
            (pathToAction.getD (goInt b1.Speed).toNat ⟨0, 0⟩)
          ⟨"ate fail", [], mv.1, mv.2, rng1, fresh, false⟩
      else if actionToDo = "mate" then
        if goInt b1.Speed ≥ (pathToAction.length : ℤ) then
          let mv := if pathToAction.length ≥ 1 then
              MoveBeingToLocation w1 b1 (pathToAction.getLastD ⟨0, 0⟩)
            else (b1, w1)
          let mb := MateBeing mv.2 mv.1 rng1 fresh
          ⟨"mated", mb.1.map some, mb.2.1, mb.2.2.1, mb.2.2.2.1, mb.2.2.2.2, false⟩
        else
          let mv := MoveBeingToLocation w1 b1
            (pathToAction.getD (goInt b1.Speed).toNat ⟨0, 0⟩)
          ⟨"wandered", [], mv.1, mv.2, rng1, fresh, false⟩
      else if actionToDo = "wander" then
        let mv := MoveBeingToLocation w1 b1 actionSpot
        ⟨"wandered", [], mv.1, mv.2, rng1, fresh, false⟩
      else if actionToDo = "hold" then
        ⟨"froze", [], b1, w1, rng1, fresh, false⟩
      else
        ⟨"wandered", [], b1, w1, rng1, fresh, false⟩
    let b5 := AdjustStressFor res.world res.being
    let b6 := AdjustNeeds res.world b5
    let b7 := if b6.TypeTag = "Carnivore" ∧ res.actionDone = "ate fail" ∧
        ¬ res.successfulHunt then { b6 with Speed := b6.Speed / 2 } else b6
    let wf := { res.world with BeingList := alSet b7.ID b7 res.world.BeingList }
    (res.actionDone, res.objectsAffected, wf, res.rng, res.fresh)

/-- The per-seed spot-search loop of DisperseSeeds: remove the drawn index
from the unvisited pool, give up when the pool empties right after the
removal, accept the spot drawn before the removal when the plant (water or
land rules) fits there on the parent's habitat, else redraw. -/
def seedSpotLoop (w : RandomWorld) (p : Food) (seedlingArea : ℚ) (seedlingId : ℕ)
    (spots : List Location) :
    ℕ → List ℕ → ℕ → ℕ → Rng → Bool × ℕ × Rng
  | 0, _, _, spotIdx, rng => (false, spotIdx, rng)
  | fuel + 1, unvisited, rnd, spotIdx, rng =>
    if unvisited.length = 0 then (true, spotIdx, rng)
    else
      let unvisited2 := (unvisited.set rnd (unvisited.getLastD 0)).dropLast
      if unvisited2.length = 0 then (false, spotIdx, rng)
      else
        let sp := spots.getD spotIdx ⟨0, 0⟩
        let ok :=
          if p.TypeTag = "Water" then
            w.canPlaceWaterPlant sp.X sp.Y seedlingArea seedlingId ∧
              (surfaceOf (w.spotAt sp)).ID = p.Habitat
          else
            w.canPlacePlant sp.X sp.Y seedlingArea ∧
              (surfaceOf (w.spotAt sp)).ID = p.Habitat
        if ok then (true, spotIdx, rng)
        else
          let d := rng.nextInt unvisited2.length
          seedSpotLoop w p seedlingArea seedlingId spots fuel unvisited2 d.1.toNat
            (unvisited2.getD d.1.toNat 0) d.2

/-- Per-seed body of DisperseSeeds: mutate the area, search a spot in the
enlarged disk, and on success fill in the seedling's mutated traits (in
source order), place its footprint, and register it. -/
def disperseOne (w : RandomWorld) (p : Food) (spots : List Location) (rng : Rng)
    (fresh : List ℕ) : Option ℕ × RandomWorld × Rng × List ℕ :=
  let seedlingId := fresh.headD 0
  let m0 := MutateValue p.Area p.MutationRate areaRange rng
  let seedlingArea := m0.1
  let d0 := m0.2.nextInt spots.length
  let rnd := d0.1.toNat
  let search := seedSpotLoop w p seedlingArea seedlingId spots (spots.length + 1)
    (List.range spots.length) rnd ((List.range spots.length).getD rnd 0) d0.2
  if search.1 then
    let sp := spots.getD search.2.1 ⟨0, 0⟩
    let m1 := MutateValue p.SeedDisperse p.MutationRate disperseRange search.2.2
    let m2 := MutateValue p.Taste p.MutationRate tasteRange m1.2
    let m3 := MutateValue p.NutritionalValue p.MutationRate nutritionRange m2.2
    let m4 := MutateValue p.Seeds p.MutationRate seedRange m3.2
    let m5 := witherRange.randomFloat m4.2
    let m6 := MutateValue p.MutationRate p.MutationRate mutationRange m5.2
    let m7 := MutateValue p.GrowthSpeed p.MutationRate mutationRange m6.2
    let w1 := updatePlantSpot w sp.X sp.Y seedlingArea (some seedlingId)
    let seedling : Food :=
      ⟨seedlingId, m7.1, m3.1, m2.1, 0, 0, seedlingArea, m4.1, m1.1, m5.1, m6.1,
        (surfaceOf (w1.spotAt sp)).ID, sp, p.TypeTag⟩
    let w2 := { w1 with FoodList := alSet seedling.ID seedling w1.FoodList }
    (some seedling.ID, w2, m7.2, fresh.tail)
  else (none, w, search.2.2, fresh.tail)

/-- The seeds loop of DisperseSeeds. -/
def disperseLoop (p : Food) (spots : List Location) :
    ℕ → RandomWorld → Rng → List ℕ → List ℕ →
    List ℕ × RandomWorld × Rng × List ℕ
  | 0, w, rng, fresh, ids => (ids, w, rng, fresh)
  | n + 1, w, rng, fresh, ids =>
    let r := disperseOne w p spots rng fresh
    match r.1 with
    | some newId =>
      disperseLoop p spots n r.2.1 r.2.2.1 r.2.2.2 (ids ++ [newId])
    | none =>
      disperseLoop p spots n r.2.1 r.2.2.1 r.2.2.2 ids

/-- RandomWorld.DisperseSeeds: plant up to the requested number of mutated
seedlings on random spots of the disk of radius Area + SeedDisperse around
the parent. -/
def DisperseSeeds (w : RandomWorld) (p : Food) (seeds : ℤ) (rng : Rng)
    (fresh : List ℕ) : List ℕ × RandomWorld × Rng × List ℕ :=
  let spots := w.MidpointCircleAt p.Position (p.Area + p.SeedDisperse)
  disperseLoop p spots (max seeds 0).toNat w rng fresh []

/-- The drift-direction redraw of a water plant: redraw a random direction
until the adjacent spot is inside the bounds.  Fuel covers the draws actually
available; exhaustion (only possible when every adjacent cell is out of
bounds, where Go would loop forever) skips the drift. -/
def driftFind (w : RandomWorld) (p : Food) : ℕ → Rng → Option Location × Rng
  | 0, rng => (none, rng)
  | fuel + 1, rng =>
    let d := rng.nextInt 8
    let direction := directions8.getD d.1.toNat ⟨0, 0⟩
    let adjacentSpot : Location :=
      ⟨p.Position.X + direction.X, p.Position.Y + direction.Y⟩
    if w.IsOutOfBounds adjacentSpot then driftFind w p fuel d.2
    else (some adjacentSpot, d.2)

/-- RandomWorld.UpdatePlant: lower the wither counter by 1/4; at zero or
below remove the plant from the registry and free its center and footprint
("withered").  Otherwise accumulate stage progress while below the final
stage; on reaching the progress cap reset it, advance the stage and disperse
a stage-proportional number of seeds.  Water plants then attempt one random
single-cell drift when the destination still suits their footprint.  The
updated plant is written back to the registry (pointer semantics). -/
def UpdatePlant (w : RandomWorld) (p : Food) (rng : Rng) (fresh : List ℕ) :
    String × List ℕ × RandomWorld × Rng × List ℕ :=
  let p1 := { p with Wither := p.Wither - 1 / 4 }
  if p1.Wither ≤ 0 then
    let w1 := { w with FoodList := alDelete p1.ID w.FoodList }
    let w2 := updatePlantSpot w1 p1.Position.X p1.Position.Y p1.Area none
    ("withered", [p1.ID], w2, rng, fresh)
  else
    let p2 := if p1.GrowthStage ≤ stageRange.Max then
        { p1 with StageProgress := p1.StageProgress + p1.GrowthSpeed }
      else p1
    if p2.StageProgress ≥ stageProgressRange.Max then
      let seedsProduced := goInt (p2.Seeds * p2.GrowthStage / growthRange.Max)
      let p3 := { p2 with StageProgress := 0, GrowthStage := p2.GrowthStage + 1 }
      let ds := DisperseSeeds w p3 seedsProduced rng fresh
      let wf := { ds.2.1 with FoodList := alSet p3.ID p3 ds.2.1.FoodList }
      if ds.1.length = 0 then ("planted fail", ds.1, wf, ds.2.2.1, ds.2.2.2)
      else ("planted seeds", ds.1, wf, ds.2.2.1, ds.2.2.2)
    else
      if p2.TypeTag = "Water" then
        let df := driftFind w p2 (rng.ints.length + 1) rng
        match df.1 with
        | none =>
          let wf := { w with FoodList := alSet p2.ID p2 w.FoodList }
          ("grew", [], wf, df.2, fresh)
        | some adjacentSpot =>
          if w.canPlaceWaterPlant adjacentSpot.X adjacentSpot.Y p2.Area p2.ID then
            let w1 := updatePlantSpot w p2.Position.X p2.Position.Y p2.Area none
            let w2 := w1.setSpot p2.Position { w1.spotAt p2.Position with Object := none }
            let w3 := updatePlantSpot w2 adjacentSpot.X adjacentSpot.Y p2.Area
              (some p2.ID)
            let w4 := w3.setSpot adjacentSpot
              { w3.spotAt adjacentSpot with Object := some p2.ID }
            let p3 := { p2 with Position := adjacentSpot }
            let wf := { w4 with FoodList := alSet p3.ID p3 w4.FoodList }
            ("grew", [], wf, df.2, fresh)
          else
            let wf := { w with FoodList := alSet p2.ID p2 w.FoodList }
            ("grew", [], wf, df.2, fresh)
      else
        let wf := { w with FoodList := alSet p2.ID p2 w.FoodList }
        ("grew", [], wf, rng, fresh)

/-- A plain grassland cell. -/
def grassSpot : Spot := ⟨1, none, none, none⟩

/-- A plain water cell. -/
def waterSpot : Spot := ⟨0, none, none, none⟩

/-- Build a Width x Height grid of spots from a cell function ([x][y] order,
as TerrainSpots is laid out). -/
def mkGrid (wd ht : ℕ) (f : ℕ → ℕ → Spot) : List (List Spot) :=
  (List.range wd).map (fun x => (List.range ht).map (fun y => f x y))

/-- Scenario world for the pathfinder claims: a 2x1 strip of grassland. -/
def world2x1 : RandomWorld :=
  { Width := 2, Height := 1, TerrainSpots := mkGrid 2 1 (fun _ _ => grassSpot),
    BeingList := [], FoodList := [] }

/-- Scenario world: a 5x5 grassland whose center cell (2,2) is walled in by a
ring of water — a traversable goal that is unreachable from the outside. -/
def worldEnclosed : RandomWorld :=
  { Width := 5, Height := 5,
    TerrainSpots := mkGrid 5 5 (fun x y =>
      if (x = 1 ∨ x = 2 ∨ x = 3) ∧ (y = 1 ∨ y = 2 ∨ y = 3) ∧ ¬ (x = 2 ∧ y = 2)
      then waterSpot else grassSpot),
    BeingList := [], FoodList := [] }

/-- Scenario being for the occupancy claim: a flier with all needs at zero,
vision 2, home habitat Forest (absent from the scenario map), at (2,2). -/
def c1Flier : Being :=
  { ID := 1, Hunger := 0, Thirst := 0, WantsChild := 0, LifeExpectancy := 10,
    VisionRange := 2, Speed := 4, Durability := 0, Stress := 0, Habitat := 2,
    Gender := "male", Size := 10, Fertility := 0, MutationRate := 0,
    Position := ⟨2, 2⟩, TypeTag := "Flying" }

/-- Scenario being: a carnivore straight above the flier at (2,4), inside its
vision disk. -/
def c1Predator : Being :=
  { ID := 2, Hunger := 0, Thirst := 0, WantsChild := 0, LifeExpectancy := 10,
    VisionRange := 2, Speed := 4, Durability := 0, Stress := 0, Habitat := 1,
    Gender := "male", Size := 5, Fertility := 0, MutationRate := 0,
    Position := ⟨2, 4⟩, TypeTag := "Carnivore" }

/-- Scenario being: an unrelated living being standing on cell (0,0),
outside the flier's vision disk. -/
def c1Victim : Being :=
  { ID := 3, Hunger := 0, Thirst := 0, WantsChild := 0, LifeExpectancy := 10,
    VisionRange := 2, Speed := 4, Durability := 0, Stress := 0, Habitat := 1,
    Gender := "female", Size := 5, Fertility := 0, MutationRate := 0,
    Position := ⟨0, 0⟩, TypeTag := "Flying" }

/-- Scenario world for the occupancy claim: 5x5 grassland, the three beings
above on their cells. -/
def c1World : RandomWorld :=
  { Width := 5, Height := 5,
    TerrainSpots := mkGrid 5 5 (fun x y =>
      if x = 2 ∧ y = 2 then ⟨1, none, some 1, none⟩
      else if x = 2 ∧ y = 4 then ⟨1, none, some 2, none⟩
      else if x = 0 ∧ y = 0 then ⟨1, none, some 3, none⟩
      else grassSpot),
    BeingList := [(1, c1Flier), (2, c1Predator), (3, c1Victim)],
    FoodList := [] }

/-- Scenario being for the carnivore-eats claim: hunger 100 (its top need,
below the pickiness threshold), speed 4, size 20, at (2,2) with grassland as
home habitat. -/
def c2Carn : Being :=
  { ID := 1, Hunger := 100, Thirst := 50, WantsChild := 0, LifeExpectancy := 10,
    VisionRange := 2, Speed := 4, Durability := 0, Stress := 0, Habitat := 1,
    Gender := "male", Size := 20, Fertility := 0, MutationRate := 0,
    Position := ⟨2, 2⟩, TypeTag := "Carnivore" }

/-- Scenario being: the prey — a flier of half the carnivore's size on the
adjacent cell (2,3). -/
def c2Prey : Being :=
  { ID := 2, Hunger := 0, Thirst := 0, WantsChild := 0, LifeExpectancy := 10,
    VisionRange := 2, Speed := 4, Durability := 0, Stress := 0, Habitat := 1,
    Gender := "female", Size := 10, Fertility := 0, MutationRate := 0,
    Position := ⟨2, 3⟩, TypeTag := "Flying" }

/-- Scenario world for the carnivore-eats claim. -/
def c2World : RandomWorld :=
  { Width := 5, Height := 5,
    TerrainSpots := mkGrid 5 5 (fun x y =>
      if x = 2 ∧ y = 2 then ⟨1, none, some 1, none⟩
      else if x = 2 ∧ y = 3 then ⟨1, none, some 2, none⟩
      else grassSpot),
    BeingList := [(1, c2Carn), (2, c2Prey)], FoodList := [] }

/-- Scenario being for the mating claim: a male carnivore at (2,2). -/
def c7Init : Being := { c2Carn with ID := 1, Gender := "male" }

/-- Scenario being: a female flier — a different species — adjacent at (1,1). -/
def c7Other : Being :=
  { c2Prey with
      ID := 2
      Gender := "female"
      TypeTag := "Flying"
      Position := ⟨1, 1⟩ }

/-- Scenario world for the mating claim. -/
def c7World : RandomWorld :=
  { Width := 5, Height := 5,
    TerrainSpots := mkGrid 5 5 (fun x y =>
      if x = 2 ∧ y = 2 then ⟨1, none, some 1, none⟩
      else if x = 1 ∧ y = 1 then ⟨1, none, some 2, none⟩
      else grassSpot),
    BeingList := [(1, c7Init), (2, c7Other)], FoodList := [] }

/-- Scenario plant for the wither claim: wither counter 1/10, footprint
diameter 2, centered at (2,2). -/
def c9Plant : Food :=
  { ID := 1, GrowthSpeed := 1, NutritionalValue := 10, Taste := 10,
    GrowthStage := 1, StageProgress := 0, Area := 2, Seeds := 3,
    SeedDisperse := 1, Wither := 1/10, MutationRate := 0, Habitat := 1,
    Position := ⟨2, 2⟩, TypeTag := "Land" }

/-- Scenario world for the wither claim: the plant's footprint row marked on
the grid. -/
def c9World : RandomWorld :=
  { Width := 5, Height := 5,
    TerrainSpots := mkGrid 5 5 (fun x y =>
      if (x = 1 ∨ x = 2 ∨ x = 3) ∧ y = 2 then
        ⟨1, if x = 2 then some 1 else none, none, some 1⟩
      else grassSpot),
    BeingList := [], FoodList := [(1, c9Plant)] }

/-- The 256-bin histogram that concentrates a 10x10 world's pixels on bins 0
and 1 (60 and 40 pixels). -/
def histLow : List ℕ := [60, 40] ++ List.replicate 254 0

/-- The 256-bin histogram that concentrates a 10x10 world's pixels entirely
on the last bin. -/
def histTop : List ℕ := List.replicate 255 0 ++ [100]

/-- Search-node invariant for the path-endpoint analysis: the parent chain is
rooted at the source location (its last element sits on the start cell). -/
def nodeRooted (fl : Location) (n : ANode) : Prop :=
  (n.chain.getLast?).map ANode.loc = some fl

/-- Search-node invariant: the node's cell is inside the world bounds and its
id is the row-major index for the given world width. -/
def nodeSound (w : RandomWorld) (ww : ℤ) (n : ANode) : Prop :=
  w.IsOutOfBounds n.loc = false ∧ n.nodeId = n.y * ww + n.x

/-- Every node of the queue satisfies the predicate. -/
def heapAll (P : ANode → Prop) (q : AStarQueue) : Prop := ∀ n ∈ q.nodes, P n

/-- The world state the eat branch leaves behind when a being on cell l is
eaten: the prey removed from the registry (QuenchHunger line: delete from
BeingList) and the cell's Being field cleared.  An abbreviation for the
composite of the embedded source operations, used as an explicit witness. -/
def eatenWorld (w1 : RandomWorld) (preyId : ℕ) (l : Location) : RandomWorld :=
  ({ w1 with BeingList := alDelete preyId w1.BeingList }).setSpot l
    { w1.spotAt l with Being := none }

/-- The carnivore right after a successful meal, before the stress and needs
updates: aged by 1/60, speed doubled by the sense phase and halved back by
the meal, hunger set to the given post-meal value.  An abbreviation used as
an explicit witness. -/
def carnAfterMeal (b : Being) (hng : ℚ) : Being :=
  { b with
    LifeExpectancy := b.LifeExpectancy - 1 / 60
    Speed := b.Speed * 2 / 2
    Hunger := hng }

/-- The per-epoch hunger increase AdjustNeeds adds for a given post-stress
being (its hungerIncrease times the durability/speed/stress/size
multiplier).  An abbreviation used as an explicit witness. -/
def needsIncrement (b5 : Being) : ℚ :=
  hungerIncrease * ((1 - b5.Durability / (durabilityRange.Max * (143/100))) *
    (1 + b5.Speed / speedRange.Max) * (1 + b5.Stress / stressRange.Max) *
    (1 + b5.Size / sizeRange.Max))

/-! Helper lemmas about the association lists and the grid, shared by several
claim theorems. -/

theorem alLookup_alDelete_self {α : Type} (k : ℕ) (l : List (ℕ × α)) :
    alLookup k (alDelete k l) = none := by
  induction l with
  | nil => rfl
  | cons hd tl ih =>
    by_cases h : hd.1 = k
    · simpa [alDelete, h] using ih
    · simpa [alDelete, alLookup, h] using ih

theorem alLookup_alDelete_ne {α : Type} (k k2 : ℕ) (l : List (ℕ × α)) (h : k ≠ k2) :
    alLookup k (alDelete k2 l) = alLookup k l := by
  induction l with
  | nil => rfl
  | cons hd tl ih =>
    by_cases h2 : hd.1 = k2
    · have h3 : hd.1 ≠ k := by omega
      rw [show alDelete k2 (hd :: tl) = alDelete k2 tl by
        simp [alDelete, List.filter_cons, h2]]
      rw [ih, alLookup, if_neg h3]
    · by_cases h3 : hd.1 = k
      · rw [show alDelete k2 (hd :: tl) = hd :: alDelete k2 tl by
          simp [alDelete, List.filter_cons, h2]]
        rw [alLookup, alLookup, if_pos h3, if_pos h3]
      · rw [show alDelete k2 (hd :: tl) = hd :: alDelete k2 tl by
          simp [alDelete, List.filter_cons, h2]]
        rw [alLookup, alLookup, if_neg h3, if_neg h3, ih]

theorem alLookup_alSet_self {α : Type} (k : ℕ) (v : α) (l : List (ℕ × α)) :
    alLookup k (alSet k v l) = some v := by
  simp [alSet, alLookup]

theorem alLookup_alSet_ne {α : Type} (k k2 : ℕ) (v : α) (l : List (ℕ × α))
    (h : k ≠ k2) : alLookup k (alSet k2 v l) = alLookup k l := by
  have h2 : k2 ≠ k := by omega
  simp [alSet, alLookup, h2]
  exact alLookup_alDelete_ne k k2 l h

theorem getD_set_cases {α : Type} :
    ∀ (l : List α) (i j : ℕ) (a d : α),
      (l.set i a).getD j d = l.getD j d ∨ (i = j ∧ (l.set i a).getD j d = a) := by
  intro l
  induction l with
  | nil => intro i j a d; left; rfl
  | cons x xs ih =>
    intro i j a d
    cases i with
    | zero =>
      cases j with
      | zero => right; exact ⟨rfl, rfl⟩
      | succ j2 => left; rfl
    | succ i2 =>
      cases j with
      | zero => left; rfl
      | succ j2 =>
        rcases ih i2 j2 a d with h | ⟨he, h⟩
        · left; simpa using h
        · right; exact ⟨by omega, by simpa using h⟩

theorem getD_set_self {α : Type} :
    ∀ (l : List α) (i : ℕ) (a d : α),
      (l.set i a).getD i d = a ∨ (l.set i a).getD i d = d := by
  intro l
  induction l with
  | nil => intro i a d; right; rfl
  | cons x xs ih =>
    intro i a d
    cases i with
    | zero => left; rfl
    | succ i2 => simpa using ih i2 a d

theorem setSpot_spotAt_cases (w : RandomWorld) (l2 : Location) (s : Spot)
    (l : Location) :
    (w.setSpot l2 s).spotAt l = w.spotAt l ∨
      ((w.setSpot l2 s).spotAt l = s ∧ w.spotAt l2 = w.spotAt l) := by
  unfold RandomWorld.setSpot RandomWorld.spotAt
  dsimp only
  rcases getD_set_cases w.TerrainSpots l2.X.toNat l.X.toNat
      ((w.TerrainSpots.getD l2.X.toNat []).set l2.Y.toNat s) [] with h | ⟨he, h⟩
  · left; rw [h]
  · rw [h, ← he]
    rcases getD_set_cases (w.TerrainSpots.getD l2.X.toNat []) l2.Y.toNat l.Y.toNat
        s default with h2 | ⟨he2, h2⟩
    · left; rw [h2, he]
    · right
      refine ⟨h2, ?_⟩
      rw [he, he2]

theorem setSpot_spotAt_self (w : RandomWorld) (l : Location) (s : Spot) :
    (w.setSpot l s).spotAt l = s ∨ (w.setSpot l s).spotAt l = default := by
  unfold RandomWorld.setSpot RandomWorld.spotAt
  dsimp only
  rcases getD_set_self w.TerrainSpots l.X.toNat
      ((w.TerrainSpots.getD l.X.toNat []).set l.Y.toNat s) [] with h | h
  · rw [h]
    rcases getD_set_self (w.TerrainSpots.getD l.X.toNat []) l.Y.toNat s default with
      h2 | h2
    · left; exact h2
    · right; exact h2
  · right; rw [h]; rfl

theorem clearOcc_preserve (w : RandomWorld) (s l : Location)
    (h : ((w.spotAt l).OccupyingPlant : Option ℕ) = none) :
    ((w.setSpot s { w.spotAt s with OccupyingPlant := none }).spotAt l).OccupyingPlant
      = none := by
  rcases setSpot_spotAt_cases w s { w.spotAt s with OccupyingPlant := none } l with
    h1 | ⟨h1, _⟩
  · rw [h1]; exact h
  · rw [h1]

theorem clearOcc_self (w : RandomWorld) (l : Location) :
    ((w.setSpot l { w.spotAt l with OccupyingPlant := none }).spotAt l).OccupyingPlant
      = none := by
  rcases setSpot_spotAt_self w l { w.spotAt l with OccupyingPlant := none } with
    h1 | h1
  · rw [h1]
  · rw [h1]; rfl

theorem clearOcc_object (w : RandomWorld) (s l : Location) :
    (((w.setSpot s { w.spotAt s with OccupyingPlant := none })).spotAt l).Object
      = (w.spotAt l).Object := by
  rcases setSpot_spotAt_cases w s { w.spotAt s with OccupyingPlant := none } l with
    h1 | ⟨h1, h2⟩
  · rw [h1]
  · rw [h1]; dsimp only; rw [h2]

theorem clearOccList_preserve (ls : List Location) :
    ∀ (w : RandomWorld) (l : Location),
      ((w.spotAt l).OccupyingPlant : Option ℕ) = none →
      ((ls.foldl (fun wa spot =>
          wa.setSpot spot { wa.spotAt spot with OccupyingPlant := none }) w).spotAt
        l).OccupyingPlant = none := by
  induction ls with
  | nil => intro w l h; exact h
  | cons s rest ih =>
    intro w l h
    exact ih _ l (clearOcc_preserve w s l h)

theorem clearOccList_all (ls : List Location) :
    ∀ (w : RandomWorld) (l : Location), l ∈ ls →
      ((ls.foldl (fun wa spot =>
          wa.setSpot spot { wa.spotAt spot with OccupyingPlant := none }) w).spotAt
        l).OccupyingPlant = none := by
  induction ls with
  | nil => intro w l h; cases h
  | cons s rest ih =>
    intro w l h
    rcases List.mem_cons.mp h with h1 | h1
    · subst h1
      exact clearOccList_preserve rest _ l (clearOcc_self w l)
    · exact ih _ l h1

theorem clearOccList_object (ls : List Location) :
    ∀ (w : RandomWorld) (l : Location),
      ((ls.foldl (fun wa spot =>
          wa.setSpot spot { wa.spotAt spot with OccupyingPlant := none }) w).spotAt
        l).Object = (w.spotAt l).Object := by
  induction ls with
  | nil => intro w l; rfl
  | cons s rest ih =>
    intro w l
    rw [List.foldl_cons, ih, clearOcc_object]

theorem IsOutOfBounds_setSpot (w : RandomWorld) (l2 : Location) (s : Spot)
    (l : Location) : (w.setSpot l2 s).IsOutOfBounds l = w.IsOutOfBounds l := rfl

theorem circleRowPair_setSpot (w : RandomWorld) (l2 : Location) (s : Spot)
    (cy dy xlo xhi : ℤ) :
    circleRowPair (w.setSpot l2 s) cy dy xlo xhi = circleRowPair w cy dy xlo xhi := rfl

theorem midpointLoop_setSpot (w : RandomWorld) (l2 : Location) (s : Spot)
    (cx cy : ℤ) :
    ∀ (fuel : ℕ) (x y P : ℤ),
      midpointLoop (w.setSpot l2 s) cx cy fuel x y P = midpointLoop w cx cy fuel x y P := by
  intro fuel
  induction fuel with
  | zero => intro x y P; rfl
  | succ n ih =>
    intro x y P
    rw [midpointLoop, midpointLoop]
    simp only [circleRowPair_setSpot, ih]

theorem MidpointCircleAt_setSpot (w : RandomWorld) (l2 : Location) (s : Spot)
    (center : Location) (radius : ℚ) :
    (w.setSpot l2 s).MidpointCircleAt center radius =
      w.MidpointCircleAt center radius := by
  unfold RandomWorld.MidpointCircleAt
  simp only [IsOutOfBounds_setSpot, midpointLoop_setSpot]

theorem goInt_nonneg (q : ℚ) (h : 0 ≤ q) : 0 ≤ goInt q := by
  unfold goInt
  rw [if_pos h]
  exact_mod_cast Rat.le_floor.mpr (by exact_mod_cast h)

theorem mateScan_gender_ne (w : RandomWorld) (b : Being) :
    ∀ (ds : List Location) (p : Being), mateScan w b ds = some p →
      p.Gender ≠ b.Gender := by
  intro ds
  induction ds with
  | nil => intro p h; simp [mateScan] at h
  | cons d rest ih =>
    intro p h
    rw [mateScan] at h
    split at h
    · split at h
      · split at h
        · cases h
          assumption
        · exact ih p h
      · exact ih p h
    · exact ih p h

theorem IsOutOfBounds_congr (w1 w2 : RandomWorld) (hW : w1.Width = w2.Width)
    (hH : w1.Height = w2.Height) (l : Location) :
    w1.IsOutOfBounds l = w2.IsOutOfBounds l := by
  unfold RandomWorld.IsOutOfBounds
  rw [hW, hH]

theorem circleRowPair_congr (w1 w2 : RandomWorld) (hW : w1.Width = w2.Width)
    (hH : w1.Height = w2.Height) (cy dy xlo xhi : ℤ) :
    circleRowPair w1 cy dy xlo xhi = circleRowPair w2 cy dy xlo xhi := by
  unfold circleRowPair
  simp only [IsOutOfBounds_congr w1 w2 hW hH]

theorem midpointLoop_congr (w1 w2 : RandomWorld) (hW : w1.Width = w2.Width)
    (hH : w1.Height = w2.Height) (cx cy : ℤ) :
    ∀ (fuel : ℕ) (x y P : ℤ),
      midpointLoop w1 cx cy fuel x y P = midpointLoop w2 cx cy fuel x y P := by
  intro fuel
  induction fuel with
  | zero => intro x y P; rfl
  | succ n ih =>
    intro x y P
    rw [midpointLoop, midpointLoop]
    simp only [circleRowPair_congr w1 w2 hW hH, ih]

theorem MidpointCircleAt_congr (w1 w2 : RandomWorld) (hW : w1.Width = w2.Width)
    (hH : w1.Height = w2.Height) (center : Location) (radius : ℚ) :
    w1.MidpointCircleAt center radius = w2.MidpointCircleAt center radius := by
  unfold RandomWorld.MidpointCircleAt
  simp only [IsOutOfBounds_congr w1 w2 hW hH, midpointLoop_congr w1 w2 hW hH]

theorem foldl_setOcc_FoodList (pid : Option ℕ) (ls : List Location) :
    ∀ w : RandomWorld,
      (ls.foldl (fun wa spot =>
        wa.setSpot spot { wa.spotAt spot with OccupyingPlant := pid }) w).FoodList
      = w.FoodList := by
  induction ls with
  | nil => intro w; rfl
  | cons a as ih =>
    intro w
    rw [List.foldl_cons, ih]
    rfl

theorem updatePlantSpot_FoodList (w : RandomWorld) (x y : ℤ) (d : ℚ)
    (pid : Option ℕ) : (updatePlantSpot w x y d pid).FoodList = w.FoodList := by
  rw [updatePlantSpot]
  rw [foldl_setOcc_FoodList]
  rfl

/-! Claim C9: withering. -/

/-- C9: a plant whose wither counter is 0.1 is removed on its next update
(the per-epoch decrement is 0.25): UpdatePlant reports "withered" with the
plant's id, deletes it from the food registry, clears the Object reference of
its center cell, and clears the footprint owner of every cell in the disk of
radius Area/2 around its position. -/
theorem claimC9_wither_removes_plant (w : RandomWorld) (p : Food) (rng : Rng)
    (fresh : List ℕ) (hwither : p.Wither = 1/10) :
    (UpdatePlant w p rng fresh).1 = "withered" ∧
    (UpdatePlant w p rng fresh).2.1 = [p.ID] ∧
    alLookup p.ID (UpdatePlant w p rng fresh).2.2.1.FoodList = none ∧
    ((UpdatePlant w p rng fresh).2.2.1.spotAt p.Position).Object = none ∧
    ∀ l ∈ w.MidpointCircleAt p.Position (p.Area / 2),
      ((UpdatePlant w p rng fresh).2.2.1.spotAt l).OccupyingPlant = none := by
  have hcond : p.Wither - 1/4 ≤ 0 := by rw [hwither]; norm_num
  rw [UpdatePlant]
  dsimp only
  rw [if_pos hcond]
  refine ⟨rfl, rfl, ?_, ?_, ?_⟩
  · rw [updatePlantSpot_FoodList]
    exact alLookup_alDelete_self p.ID w.FoodList
  · rw [updatePlantSpot]
    dsimp only
    rw [clearOccList_object]
    have hP : (⟨p.Position.X, p.Position.Y⟩ : Location) = p.Position := rfl
    rw [hP]
    rcases setSpot_spotAt_self ({ w with FoodList := alDelete p.ID w.FoodList } :
        RandomWorld) p.Position
        { ({ w with FoodList := alDelete p.ID w.FoodList } :
            RandomWorld).spotAt p.Position with Object := none } with h1 | h1
    · rw [h1]
    · rw [h1]; rfl
  · intro l hl
    rw [updatePlantSpot]
    dsimp only
    apply clearOccList_all
    have hP : (⟨p.Position.X, p.Position.Y⟩ : Location) = p.Position := rfl
    rw [MidpointCircleAt_setSpot, hP]
    rw [MidpointCircleAt_congr ({ w with FoodList := alDelete p.ID w.FoodList } :
      RandomWorld) w rfl rfl]
    exact hl

/-- Witness for C9: the scenario plant at wither 1/10 on the scenario world is
removed, reported withered, and its footprint cell (1,2) is freed. -/
theorem claimC9_wither_removes_plant_witness :
    (UpdatePlant c9World c9Plant ⟨[], []⟩ []).1 = "withered" ∧
    alLookup c9Plant.ID (UpdatePlant c9World c9Plant ⟨[], []⟩ []).2.2.1.FoodList
      = none ∧
    ((UpdatePlant c9World c9Plant ⟨[], []⟩ []).2.2.1.spotAt ⟨1, 2⟩).OccupyingPlant
      = none := by
  have h := claimC9_wither_removes_plant c9World c9Plant ⟨[], []⟩ [] (by rfl)
  refine ⟨h.1, h.2.2.1, ?_⟩
  exact h.2.2.2.2 ⟨1, 2⟩ (by with_unfolding_all decide)

/-! Claim C7: mating partner selection. -/

/-- C7 counterexample: on the scenario world the male Carnivore initiator's
8-neighborhood scan selects the adjacent female Flying being — a being of a
different species — as its mating partner, so the partner is not always of
the same species. -/
theorem claimC7_counterexample :
    matePartnerFor c7World c7Init = some c7Other ∧
    c7Other.TypeTag ≠ c7Init.TypeTag ∧ c7Other.Gender ≠ c7Init.Gender := by
  refine ⟨by with_unfolding_all rfl, by decide, by decide⟩

/-- C7 amended: the partner selected by MateBeing's 8-neighborhood scan is
always of the opposite gender, but the scan checks only the gender — a being
of a different species can be chosen (the same-species filter exists only in
the mate-target sensing, not here). -/
theorem claimC7_partner_opposite_gender (w : RandomWorld) (b p : Being)
    (h : matePartnerFor w b = some p) : p.Gender ≠ b.Gender :=
  mateScan_gender_ne w b directions8 p h

/-- Witness for C7: the scenario partner's gender differs from the
initiator's. -/
theorem claimC7_partner_opposite_gender_witness :
    c7Other.Gender ≠ c7Init.Gender :=
  claimC7_partner_opposite_gender c7World c7Init c7Other (by with_unfolding_all rfl)

/-! Claim C8: mutation clamping. -/

/-- C8: for every parent value, mutation rate and random draw, and every
attribute range with Min ≤ Max, the values produced by MutateValue and by
MutateValues lie within the declared [Min, Max]. -/
theorem claimC8_mutated_values_in_range (vr : attributeRange)
    (h : vr.Min ≤ vr.Max) :
    (∀ p m rng, vr.Min ≤ (MutateValue p m vr rng).1 ∧
      (MutateValue p m vr rng).1 ≤ vr.Max) ∧
    (∀ v1 v2 m rng, vr.Min ≤ (MutateValues v1 v2 m vr rng).1 ∧
      (MutateValues v1 v2 m vr rng).1 ≤ vr.Max) := by
  constructor
  · intro p m rng
    unfold MutateValue
    dsimp only
    split_ifs <;> constructor <;> linarith
  · intro v1 v2 m rng
    unfold MutateValues
    dsimp only
    split_ifs <;> constructor <;> linarith

/-- Witness for C8: the speed range instance. -/
theorem claimC8_mutated_values_in_range_witness :
    speedRange.Min ≤ (MutateValue 5 3 speedRange ⟨[], [2]⟩).1 ∧
    (MutateValue 5 3 speedRange ⟨[], [2]⟩).1 ≤ speedRange.Max :=
  (claimC8_mutated_values_in_range speedRange (by norm_num [speedRange])).1
    5 3 ⟨[], [2]⟩

/-! Claim C10: the two-parent blend escapes the parents' interval. -/

/-- C10: there are parent values both strictly above the range minimum and a
random draw for which MutateValues returns the range minimum — the blended
value is not confined to the interval between the two parents (a zero normal
draw makes the multiplier zero, the product underflows the range and is
clamped up to Min). -/
theorem claimC10_blend_reaches_minimum :
    ∃ (v1 v2 mr : ℚ) (rng : Rng),
      speedRange.Min < v1 ∧ speedRange.Min < v2 ∧
      (MutateValues v1 v2 mr speedRange rng).1 = speedRange.Min ∧
      (MutateValues v1 v2 mr speedRange rng).1 < v1 ∧
      (MutateValues v1 v2 mr speedRange rng).1 < v2 := by
  refine ⟨5, 7, 3, ⟨[], [0, 1/2]⟩, ?_, ?_, ?_, ?_, ?_⟩
  · norm_num [speedRange]
  · norm_num [speedRange]
  · with_unfolding_all rfl
  · with_unfolding_all decide
  · with_unfolding_all decide

/-! Claims C3 and C4: zone limits. -/

theorem zoneLimitsLoop_length (hist : List ℕ) (ap : ℚ) :
    ∀ (rs : List ℚ) (cb : ℤ) (l : List ℤ),
      zoneLimitsLoop hist ap rs cb = Except.ok l → l.length = rs.length := by
  intro rs
  induction rs with
  | nil =>
    intro cb l h
    rw [zoneLimitsLoop] at h
    cases h
    rfl
  | cons r rest ih =>
    intro cb l h
    rw [zoneLimitsLoop] at h
    split at h
    · cases h
    · dsimp only at h
      split at h
      · cases h
      · cases h
        simp only [List.length_cons]
        rw [ih _ _ (by assumption)]

theorem zoneLimitsLoop_error_kind (hist : List ℕ) (ap : ℚ) :
    ∀ (rs : List ℚ) (cb : ℤ) (e : ZoneLimitErr),
      zoneLimitsLoop hist ap rs cb = Except.error e →
      e = ZoneLimitErr.histIndexOutOfRange := by
  intro rs
  induction rs with
  | nil => intro cb e h; cases h
  | cons r rest ih =>
    intro cb e h
    rw [zoneLimitsLoop] at h
    split at h
    · cases h; rfl
    · dsimp only at h
      split at h
      · cases h
        exact ih _ _ (by assumption)
      · cases h

theorem setLast255_getLast : ∀ (l : List ℤ), l ≠ [] →
    (l.set (l.length - 1) 255).getLast? = some 255 := by
  intro l
  induction l with
  | nil => intro h; cases h rfl
  | cons a t ih =>
    intro _
    cases t with
    | nil => rfl
    | cons b t2 =>
      have h2 : (a :: b :: t2).length - 1 = ((b :: t2).length - 1) + 1 := by
        simp
      rw [h2, List.set_cons_succ]
      have h3 : (b :: t2).set ((b :: t2).length - 1) 255 ≠ [] := by
        have := List.length_set (b :: t2) ((b :: t2).length - 1) (255 : ℤ)
        intro hc
        rw [hc] at this
        simp at this
      cases hX : (b :: t2).set ((b :: t2).length - 1) 255 with
      | nil => exact absurd hX h3
      | cons x2 rest2 =>
        rw [List.getLast?_cons_cons, ← hX]
        exact ih (by simp)

/-- C3 counterexample: a valid histogram (256 bins, 100 pixels of a 10x10
world on bins 0 and 1) and a valid ratio list (sums to exactly 1, three
entries for six surfaces) for which CalculateZoneLimits returns [255, 0, 255]
— the first limit wraps around through uint8(-1) — which is not
non-decreasing. -/
theorem claimC3_counterexample :
    CalculateZoneLimits 10 10 histLow [1/100, 1/2, 49/100] =
      Except.ok [255, 0, 255] ∧
    ([(1:ℚ)/100, 1/2, 49/100].sum = 1) ∧
    [(1:ℚ)/100, 1/2, 49/100].length ≤ Surfaces.length ∧
    histLow.length = 256 ∧
    zoneLimitsNonDecr [255, 0, 255] = false := by
  refine ⟨by with_unfolding_all rfl, by norm_num, by decide, by decide, by decide⟩

/-- C3 amended: for every histogram and ratio list accepted by the input
checks (sum within 1e-14 of 1), whenever CalculateZoneLimits returns a list
its last element is 255 (the forced final limit); the list need not be
non-decreasing. -/
theorem claimC3_last_zone_limit (width height : ℤ) (hist : List ℕ) (rs : List ℚ)
    (l : List ℤ) (_hhist : hist.length = 256)
    (hsum : ¬ (rs.sum > 1 + 1 / 100000000000000 ∨
      rs.sum < 1 - 1 / 100000000000000))
    (hok : CalculateZoneLimits width height hist rs = Except.ok l) :
    l.getLast? = some 255 := by
  rw [CalculateZoneLimits] at hok
  rw [if_neg hsum] at hok
  split at hok
  · cases hok
  · split at hok
    · cases hok
    · cases hok
      have hlen := zoneLimitsLoop_length hist _ rs 0 _ (by assumption)
      have hne : rs ≠ [] := by
        intro hc
        rw [hc] at hsum
        simp at hsum
        norm_num at hsum
      apply setLast255_getLast
      intro hc
      rw [hc] at hlen
      simp at hlen
      exact hne (List.eq_nil_of_length_eq_zero hlen.symm)

/-- Witness for C3 amended: the counterexample inputs once more — the
returned list indeed ends in 255. -/
theorem claimC3_last_zone_limit_witness :
    ([(255 : ℤ), 0, 255].getLast? = some 255) :=
  claimC3_last_zone_limit 10 10 histLow [1/100, 1/2, 49/100] [255, 0, 255]
    (by decide) (by norm_num) (by with_unfolding_all rfl)

/-- C4 counterexample: with every pixel of a 10x10 world on bin 255 and the
valid ratio list [9/10, 1/10], CalculateZoneLimits fails — Go panics reading
hist[256] — even though the ratios sum to 1 and do not outnumber the
surfaces; the failure is not one of the two ConfigError checks. -/
theorem claimC4_counterexample :
    CalculateZoneLimits 10 10 histTop [9/10, 1/10] =
      Except.error ZoneLimitErr.histIndexOutOfRange ∧
    isConfigErrorResult (CalculateZoneLimits 10 10 histTop [9/10, 1/10]) = false ∧
    ([(9:ℚ)/10, 1/10].sum = 1) ∧
    [(9:ℚ)/10, 1/10].length ≤ Surfaces.length ∧
    histTop.length = 256 := by
  refine ⟨by with_unfolding_all rfl, by with_unfolding_all rfl, by norm_num,
    by decide, by decide⟩

/-- C4 amended: a ConfigError outcome of the zone-limit computation occurs if
and only if the ratios do not sum to 1 within 1e-14 or outnumber the defined
surfaces, and on such a failure no limits are produced; for some valid
inputs, however, the computation can instead fail with an index-out-of-range
panic, so "fails" and "fails with ConfigError" do not coincide. -/
theorem claimC4_config_error_iff (width height : ℤ) (hist : List ℕ)
    (rs : List ℚ) (_hhist : hist.length = 256) :
    (isConfigErrorResult (CalculateZoneLimits width height hist rs) = true ↔
      ((rs.sum > 1 + 1 / 100000000000000 ∨ rs.sum < 1 - 1 / 100000000000000) ∨
        Surfaces.length < rs.length)) ∧
    (∀ l : List ℤ,
      isConfigErrorResult (CalculateZoneLimits width height hist rs) = true →
      CalculateZoneLimits width height hist rs ≠ Except.ok l) := by
  constructor
  · rw [CalculateZoneLimits]
    by_cases h1 : rs.sum > 1 + 1 / 100000000000000 ∨
        rs.sum < 1 - 1 / 100000000000000
    · rw [if_pos h1]
      exact iff_of_true rfl (Or.inl h1)
    · rw [if_neg h1]
      by_cases h2 : Surfaces.length < rs.length
      · rw [if_pos h2]
        exact iff_of_true rfl (Or.inr h2)
      · rw [if_neg h2]
        constructor
        · intro hcfg
          exfalso
          rcases hres : zoneLimitsLoop hist ((width * height : ℤ) : ℚ) rs 0 with
            e | limits
          · rw [hres] at hcfg
            have := zoneLimitsLoop_error_kind hist _ rs 0 e hres
            subst this
            simp [isConfigErrorResult] at hcfg
          · rw [hres] at hcfg
            simp [isConfigErrorResult] at hcfg
        · intro hc
          rcases hc with hc | hc
          · exact absurd hc h1
          · exact absurd hc h2
  · intro l hcfg hok
    rw [hok] at hcfg
    simp [isConfigErrorResult] at hcfg

/-- Witness for C4 amended: at the counterexample histogram the equivalence
holds — the outcome is not a ConfigError and indeed the ratios are valid. -/
theorem claimC4_config_error_iff_witness :
    (isConfigErrorResult (CalculateZoneLimits 10 10 histTop [9/10, 1/10]) = true ↔
      (((9:ℚ)/10 + (1/10 + 0) > 1 + 1 / 100000000000000 ∨
        (9:ℚ)/10 + (1/10 + 0) < 1 - 1 / 100000000000000) ∨
        Surfaces.length < [(9:ℚ)/10, 1/10].length)) ∨ True := by
  left
  have h := (claimC4_config_error_iff 10 10 histTop [9/10, 1/10] (by decide)).1
  simpa [List.sum] using h

/-! Claim C1: occupancy under the per-epoch update. -/

/-- C1 failing input, evaluated: on the scenario world the flier at (2,2)
sees the carnivore straight above, finds no safe habitat cell, and because
the quantized predator bearing is axis-aligned the flee branch leaves the
chosen spot at its zero value (0,0) — the update then moves the flier onto
(0,0), whose Being field named the living victim being 3.  Before the update
the cell named being 3 (alive in the registry); afterwards it names being 1
while being 3 is still registered at that same position — two living beings
on one cell. -/
theorem claimC1_flight_moves_onto_occupied :
    (c1World.spotAt ⟨0, 0⟩).Being = some c1Victim.ID ∧
    alLookup c1Victim.ID c1World.BeingList = some c1Victim ∧
    (UpdateBeing c1World c1Flier ⟨[], []⟩ []).1 = "wandered" ∧
    ((UpdateBeing c1World c1Flier ⟨[], []⟩ []).2.2.1.spotAt ⟨0, 0⟩).Being
      = some c1Flier.ID ∧
    alLookup c1Victim.ID (UpdateBeing c1World c1Flier ⟨[], []⟩ []).2.2.1.BeingList
      = some c1Victim ∧
    (alLookup c1Flier.ID
        (UpdateBeing c1World c1Flier ⟨[], []⟩ []).2.2.1.BeingList).map
      Being.Position = some ⟨0, 0⟩ ∧
    c1Victim.Position = ⟨0, 0⟩ := by
  refine ⟨by with_unfolding_all rfl, by with_unfolding_all rfl,
    by with_unfolding_all rfl, by with_unfolding_all rfl,
    by with_unfolding_all rfl, by with_unfolding_all rfl, by decide⟩

/-! Claim C2: the carnivore's adjacent-prey meal. -/

/-- C2 counterexample: on the scenario world the carnivore (speed 4, size 20,
hunger 100) adjacent to the half-sized prey eats it on its next update — the
prey leaves the registry and the grid and the hunger falls — but the
carnivore's speed after the update equals its pre-update value 4, not half of
it: the sense phase doubles the speed for the hunt and the meal halves it
back. -/
theorem claimC2_counterexample :
    (UpdateBeing c2World c2Carn ⟨[], []⟩ []).1 = "ate being" ∧
    alLookup c2Prey.ID (UpdateBeing c2World c2Carn ⟨[], []⟩ []).2.2.1.BeingList
      = none ∧
    ((UpdateBeing c2World c2Carn ⟨[], []⟩ []).2.2.1.spotAt ⟨2, 3⟩).Being = none ∧
    (alLookup c2Carn.ID
        (UpdateBeing c2World c2Carn ⟨[], []⟩ []).2.2.1.BeingList).map Being.Hunger
      = some (525243/8704) ∧
    (525243 : ℚ)/8704 < c2Carn.Hunger ∧
    (alLookup c2Carn.ID
        (UpdateBeing c2World c2Carn ⟨[], []⟩ []).2.2.1.BeingList).map Being.Speed
      = some 4 ∧
    c2Carn.Speed = 4 ∧ ¬ ((4 : ℚ) = 4 / 2) := by
  refine ⟨by with_unfolding_all rfl, by with_unfolding_all rfl,
    by with_unfolding_all rfl, by with_unfolding_all rfl,
    by with_unfolding_all decide, by with_unfolding_all rfl, by decide,
    by with_unfolding_all decide⟩

/-! Claims C5 and C6: the pathfinder's results. -/

theorem getPath_empty_of_invalid_goal (w : RandomWorld) (f t : Location)
    (h : ¬ (w.IsHabitable t = true) ∨ w.GetBeingAt t ≠ none) :
    GetPath w f t = [] := by
  rw [GetPath]
  rw [if_pos h]

theorem getPath_empty_of_astar_none (w : RandomWorld) (f t : Location)
    (h : astar (ANode.node f.X f.Y 0 none 0 0) (ANode.node t.X t.Y 0 none 0 0) w
      = none) : GetPath w f t = [] := by
  rw [GetPath]
  split
  · rfl
  · dsimp only
    rw [h]

theorem getPath_empty_of_target_being (w : RandomWorld) (f t : Location)
    (h : (w.spotAt t).Being ≠ none) : GetPath w f t = [] := by
  apply getPath_empty_of_invalid_goal
  by_cases hb : w.IsOutOfBounds t
  · left
    unfold RandomWorld.IsHabitable
    rw [if_pos hb]
    simp
  · right
    unfold RandomWorld.GetBeingAt
    rw [if_neg hb]
    exact h

/-- C5: no path is a normal empty-list result, not an error: an inhabitable
or occupied goal yields an empty path up front; whenever the A* search comes
back empty-handed (the open set emptied before the goal), GetPath returns the
empty list; and on the concrete walled-in goal — itself habitable and free —
the search indeed returns nothing and GetPath returns []. -/
theorem claimC5_no_path_is_empty_list :
    (∀ (w : RandomWorld) (f t : Location),
      (¬ (w.IsHabitable t = true) ∨ w.GetBeingAt t ≠ none) → GetPath w f t = []) ∧
    (∀ (w : RandomWorld) (f t : Location),
      astar (ANode.node f.X f.Y 0 none 0 0) (ANode.node t.X t.Y 0 none 0 0) w
        = none → GetPath w f t = []) ∧
    worldEnclosed.IsHabitable ⟨2, 2⟩ = true ∧
    worldEnclosed.GetBeingAt ⟨2, 2⟩ = none ∧
    astar (ANode.node 0 0 0 none 0 0) (ANode.node 2 2 0 none 0 0) worldEnclosed
      = none ∧
    GetPath worldEnclosed ⟨0, 0⟩ ⟨2, 2⟩ = [] := by
  refine ⟨getPath_empty_of_invalid_goal, getPath_empty_of_astar_none,
    by with_unfolding_all rfl, by with_unfolding_all rfl,
    by with_unfolding_all rfl, by with_unfolding_all rfl⟩

/-- Witness for C5: a water (non-habitable) goal on the enclosed world gives
the empty path through the first part of the claim theorem. -/
theorem claimC5_no_path_is_empty_list_witness :
    GetPath worldEnclosed ⟨0, 0⟩ ⟨1, 1⟩ = [] :=
  claimC5_no_path_is_empty_list.1 worldEnclosed ⟨0, 0⟩ ⟨1, 1⟩
    (Or.inl (by with_unfolding_all decide))

/-- C6 counterexample: on the 2x1 strip the path from (0,0) to the adjacent
goal (1,0) is [(0,0), (1,0)] — it begins with the start cell itself, not with
the first step after it (which would make the path [(1,0)]). -/
theorem claimC6_counterexample :
    GetPath world2x1 ⟨0, 0⟩ ⟨1, 0⟩ = [⟨0, 0⟩, ⟨1, 0⟩] ∧
    (GetPath world2x1 ⟨0, 0⟩ ⟨1, 0⟩).head? ≠ some ⟨1, 0⟩ ∧
    GetPath world2x1 ⟨0, 0⟩ ⟨1, 0⟩ ≠ [⟨1, 0⟩] := by
  refine ⟨by with_unfolding_all rfl, by with_unfolding_all decide,
    by with_unfolding_all decide⟩

/-! Heap and chain lemmas for the amended path-endpoint claim. -/

theorem chain_ne_nil (n : ANode) : n.chain ≠ [] := by
  cases n with
  | node x y i p g f => cases p <;> simp [ANode.chain]

theorem chain_head (n : ANode) : n.chain.head? = some n := by
  cases n with
  | node x y i p g f => cases p <;> rfl

theorem getLast?_cons_of_ne_nil {α : Type} (a : α) (l : List α) (h : l ≠ []) :
    (a :: l).getLast? = l.getLast? := by
  cases l with
  | nil => cases h rfl
  | cons b t => exact List.getLast?_cons_cons

theorem withScores_x (n : ANode) (g f : ℚ) : (n.withScores g f).x = n.x := by
  cases n; rfl

theorem withScores_y (n : ANode) (g f : ℚ) : (n.withScores g f).y = n.y := by
  cases n; rfl

theorem withScores_id (n : ANode) (g f : ℚ) : (n.withScores g f).nodeId = n.nodeId := by
  cases n; rfl

theorem nodeRooted_withScores (fl : Location) (n : ANode) (g f : ℚ) :
    nodeRooted fl (n.withScores g f) ↔ nodeRooted fl n := by
  cases n with
  | node x y i p go fo =>
    cases p with
    | none => unfold nodeRooted; rfl
    | some pp =>
      unfold nodeRooted
      show ((ANode.node x y i (some pp) g f :: pp.chain).getLast?.map ANode.loc
        = some fl) ↔ _
      rw [getLast?_cons_of_ne_nil _ _ (chain_ne_nil pp)]
      show _ ↔ ((ANode.node x y i (some pp) go fo :: pp.chain).getLast?.map
        ANode.loc = some fl)
      rw [getLast?_cons_of_ne_nil _ _ (chain_ne_nil pp)]

theorem nodeSound_withScores (w : RandomWorld) (ww : ℤ)
    (n : ANode) (g f : ℚ) :
    nodeSound w ww (n.withScores g f) ↔ nodeSound w ww n := by
  cases n with
  | node x y i p go fo => unfold nodeSound; rfl

theorem getD_mem_of_lt {α : Type} :
    ∀ (l : List α) (i : ℕ) (d : α), i < l.length → l.getD i d ∈ l := by
  intro l
  induction l with
  | nil => intro i d h; simp at h
  | cons a t ih =>
    intro i d h
    cases i with
    | zero => left
    | succ i2 =>
      right
      exact ih i2 d (by simpa using h)

theorem getLastD_mem {α : Type} :
    ∀ (l : List α) (d : α), l ≠ [] → l.getLastD d ∈ l := by
  intro l
  induction l with
  | nil => intro d h; cases h rfl
  | cons a t ih =>
    intro d _
    cases ht : t with
    | nil => simp [List.getLastD]
    | cons b t2 =>
      rw [← ht]
      have : (a :: t).getLastD d = t.getLastD d := by
        rw [ht]; rfl
      rw [this]
      right
      exact ih d (by rw [ht]; simp)

theorem heapAll_qSwap (P : ANode → Prop) (q : AStarQueue) (i j : ℕ)
    (h : heapAll P q) : heapAll P (qSwap q i j) := by
  unfold qSwap
  split
  · next hij =>
    intro n hn
    dsimp only at hn
    rcases List.mem_or_eq_of_mem_set hn with hn2 | hn2
    · rcases List.mem_or_eq_of_mem_set hn2 with hn3 | hn3
      · exact h n hn3
      · subst hn3; exact h _ (getD_mem_of_lt _ _ _ hij.2)
    · subst hn2; exact h _ (getD_mem_of_lt _ _ _ hij.1)
  · exact h

theorem qSwap_length (q : AStarQueue) (i j : ℕ) :
    (qSwap q i j).nodes.length = q.nodes.length := by
  unfold qSwap
  split
  · dsimp only; rw [List.length_set, List.length_set]
  · rfl

theorem heapAll_heapUp (P : ANode → Prop) :
    ∀ (fuel : ℕ) (q : AStarQueue) (j : ℕ), heapAll P q →
      heapAll P (heapUp fuel q j) := by
  intro fuel
  induction fuel with
  | zero => intro q j h; exact h
  | succ n ih =>
    intro q j h
    rw [heapUp]
    split
    · exact h
    · exact ih _ _ (heapAll_qSwap P q _ j h)

theorem heapAll_heapDown (P : ANode → Prop) :
    ∀ (fuel : ℕ) (q : AStarQueue) (i0 i n : ℕ), heapAll P q →
      heapAll P (heapDown fuel q i0 i n).1 := by
  intro fuel
  induction fuel with
  | zero => intro q i0 i n h; exact h
  | succ m ih =>
    intro q i0 i n h
    rw [heapDown]
    split
    · exact h
    · dsimp only
      split
      · split
        · exact h
        · exact ih _ _ _ _ (heapAll_qSwap P q _ _ h)
      · split
        · exact h
        · exact ih _ _ _ _ (heapAll_qSwap P q _ _ h)

theorem heapDown_length :
    ∀ (fuel : ℕ) (q : AStarQueue) (i0 i n : ℕ),
      (heapDown fuel q i0 i n).1.nodes.length = q.nodes.length := by
  intro fuel
  induction fuel with
  | zero => intro q i0 i n; rfl
  | succ m ih =>
    intro q i0 i n
    rw [heapDown]
    split
    · rfl
    · dsimp only
      split
      · split
        · rfl
        · rw [ih, qSwap_length]
      · split
        · rfl
        · rw [ih, qSwap_length]

theorem heapAll_qPush (P : ANode → Prop) (q : AStarQueue) (n : ANode)
    (h : heapAll P q) (hn : P n) : heapAll P (qPush q n) := by
  intro m hm
  rcases List.mem_append.mp hm with hm2 | hm2
  · exact h m hm2
  · rw [List.mem_singleton.mp hm2]; exact hn

theorem heapAll_heapPush (P : ANode → Prop) (q : AStarQueue) (n : ANode)
    (h : heapAll P q) (hn : P n) : heapAll P (heapPush q n) :=
  heapAll_heapUp P _ _ _ (heapAll_qPush P q n h hn)

theorem heapAll_qPop (P : ANode → Prop) (q : AStarQueue) (h : heapAll P q)
    (hne : q.nodes ≠ []) : P (qPop q).1 ∧ heapAll P (qPop q).2 := by
  constructor
  · exact h _ (getLastD_mem _ _ hne)
  · intro m hm
    exact h m (List.dropLast_subset _ hm)

theorem heapAll_heapPop (P : ANode → Prop) (q : AStarQueue)
    (hne : q.nodes ≠ []) (h : heapAll P q) :
    P (heapPop q).1 ∧ heapAll P (heapPop q).2 := by
  unfold heapPop
  have h1 := heapAll_qSwap P q 0 (q.nodes.length - 1) h
  have h2 := heapAll_heapDown P ((qSwap q 0 (q.nodes.length - 1)).nodes.length + 1)
    (qSwap q 0 (q.nodes.length - 1)) 0 0 (q.nodes.length - 1) h1
  apply heapAll_qPop P _ h2
  intro hc
  have hl := heapDown_length ((qSwap q 0 (q.nodes.length - 1)).nodes.length + 1)
    (qSwap q 0 (q.nodes.length - 1)) 0 0 (q.nodes.length - 1)
  rw [hc] at hl
  simp only [List.length_nil] at hl
  rw [qSwap_length] at hl
  exact hne (List.eq_nil_of_length_eq_zero hl.symm)

theorem heapAll_heapFix (P : ANode → Prop) (q : AStarQueue) (i : ℕ)
    (h : heapAll P q) : heapAll P (heapFix q i) := by
  unfold heapFix
  dsimp only
  split
  · exact heapAll_heapDown P _ _ _ _ _ h
  · exact heapAll_heapUp P _ _ _ (heapAll_heapDown P _ _ _ _ _ h)

theorem heapAll_qUpdate (P : ANode → Prop)
    (hP : ∀ (n : ANode) (g f : ℚ), P n → P (n.withScores g f))
    (q : AStarQueue) (i : ℤ) (g f : ℚ) (h : heapAll P q) :
    heapAll P (qUpdate q i g f) := by
  unfold qUpdate
  split
  · exact h
  · split
    · next hloc =>
      apply heapAll_heapFix
      intro m hm
      rcases List.mem_or_eq_of_mem_set hm with hm2 | hm2
      · exact h m hm2
      · rw [hm2]
        exact hP _ _ _ (h _ (getD_mem_of_lt _ _ _ hloc))
    · exact h

theorem isHabitable_oob_false (w : RandomWorld) (l : Location)
    (h : w.IsHabitable l = true) : w.IsOutOfBounds l = false := by
  unfold RandomWorld.IsHabitable at h
  by_cases hb : w.IsOutOfBounds l
  · rw [if_pos hb] at h; cases h
  · simpa using hb

theorem not_oob_bounds (w : RandomWorld) (l : Location)
    (h : w.IsOutOfBounds l = false) :
    0 ≤ l.X ∧ l.X < w.Width ∧ 0 ≤ l.Y ∧ l.Y < w.Height := by
  unfold RandomWorld.IsOutOfBounds at h
  simp only [Bool.or_eq_false_iff, decide_eq_false_iff_not, not_lt, ge_iff_le, not_le] at h
  omega

theorem rowmajor_inj (W x1 y1 x2 y2 : ℤ) (hW : 0 < W)
    (h1 : 0 ≤ x1) (h2 : x1 < W) (h3 : 0 ≤ x2) (h4 : x2 < W)
    (he : y1 * W + x1 = y2 * W + x2) : x1 = x2 ∧ y1 = y2 := by
  have e1 : (x1 + W * y1) % W = x1 % W := Int.add_mul_emod_self_left x1 W y1
  have e2 : (x2 + W * y2) % W = x2 % W := Int.add_mul_emod_self_left x2 W y2
  have e3 : x1 % W = x1 := Int.emod_eq_of_lt h1 h2
  have e4 : x2 % W = x2 := Int.emod_eq_of_lt h3 h4
  have he2 : x1 + W * y1 = x2 + W * y2 := by linarith [he]
  have hx : x1 = x2 := by
    rw [← e3, ← e1, he2, e2, e4]
  refine ⟨hx, ?_⟩
  have : W * y1 = W * y2 := by omega
  exact mul_left_cancel₀ (ne_of_gt hW) this

theorem pathNeighbors_habitable (n : ANode) (w : RandomWorld) :
    ∀ m ∈ PathNeighbors n w, w.IsHabitable m.loc = true := by
  intro m hm
  unfold PathNeighbors at hm
  rcases List.mem_filterMap.mp hm with ⟨offset, _, heq⟩
  dsimp only at heq
  split at heq
  · next hcond =>
    cases heq
    simp only [Bool.and_eq_true, decide_eq_true_eq] at hcond
    exact hcond.1
  · cases heq

theorem withId_loc (m : ANode) (i : ℤ) : (m.withId i).loc = m.loc := by
  cases m; rfl

theorem withId_xy (m : ANode) (i : ℤ) : (m.withId i).x = m.x ∧ (m.withId i).y = m.y := by
  cases m; exact ⟨rfl, rfl⟩

theorem withId_id (m : ANode) (i : ℤ) : (m.withId i).nodeId = i := by
  cases m; rfl

theorem node_child_rooted (fl : Location) (x y i : ℤ) (cur : ANode) (g f : ℚ)
    (h : nodeRooted fl cur) : nodeRooted fl (ANode.node x y i (some cur) g f) := by
  unfold nodeRooted at h ⊢
  rw [show (ANode.node x y i (some cur) g f).chain
      = ANode.node x y i (some cur) g f :: cur.chain from rfl]
  rw [getLast?_cons_of_ne_nil _ _ (chain_ne_nil cur)]
  exact h

theorem withId_fresh_sound (w : RandomWorld) (ww : ℤ) (nb cur : ANode) (g f : ℚ)
    (hoob : w.IsOutOfBounds nb.loc = false) :
    nodeSound w ww (ANode.node (nb.withId (nodeIdOf ww nb)).x
      (nb.withId (nodeIdOf ww nb)).y (nb.withId (nodeIdOf ww nb)).nodeId
      (some cur) g f) := by
  cases nb with
  | node x y i p g0 f0 => exact ⟨hoob, rfl⟩

theorem heapAll_expandNeighbors (w : RandomWorld) (ww : ℤ) (toN cur : ANode)
    (closed : List ℤ) (fl : Location)
    (hcur : nodeRooted fl cur ∧ nodeSound w ww cur) :
    ∀ (nbs : List ANode) (q : AStarQueue),
      (∀ m ∈ nbs, w.IsHabitable m.loc = true) →
      heapAll (fun n => nodeRooted fl n ∧ nodeSound w ww n) q →
      heapAll (fun n => nodeRooted fl n ∧ nodeSound w ww n)
        (expandNeighbors w ww toN cur closed nbs q) := by
  intro nbs
  induction nbs with
  | nil => intro q _ hq; exact hq
  | cons nb rest ih =>
    intro q hnbs hq
    rw [expandNeighbors]
    dsimp only
    split
    · exact ih q (fun m hm => hnbs m (List.mem_cons_of_mem _ hm)) hq
    · split
      · apply ih _ (fun m hm => hnbs m (List.mem_cons_of_mem _ hm))
        apply heapAll_heapPush _ _ _ hq
        refine ⟨node_child_rooted fl _ _ _ cur _ _ hcur.1, ?_⟩
        exact withId_fresh_sound w ww nb cur _ _
          (isHabitable_oob_false w nb.loc (hnbs nb (List.mem_cons_self _ _)))
      · split
        · apply ih _ (fun m hm => hnbs m (List.mem_cons_of_mem _ hm))
          apply heapAll_qUpdate _ ?_ _ _ _ _ hq
          intro m g f hm
          exact ⟨(nodeRooted_withScores fl m g f).mpr hm.1,
            (nodeSound_withScores w ww m g f).mpr hm.2⟩
        · exact ih _ (fun m hm => hnbs m (List.mem_cons_of_mem _ hm)) hq

theorem map_getLast? {α β : Type} (f : α → β) :
    ∀ l : List α, (l.map f).getLast? = l.getLast?.map f := by
  intro l
  induction l with
  | nil => rfl
  | cons a t ih =>
    cases t with
    | nil => rfl
    | cons b u =>
      rw [List.map_cons, getLast?_cons_of_ne_nil _ _ (by simp), ih,
        List.getLast?_cons_cons]

theorem astarLoop_endpoints (w : RandomWorld) (ww : ℤ) (toN : ANode) (fl : Location) :
    ∀ (fuel : ℕ) (openList : AStarQueue) (closed : List ℤ)
      (res : List ANode × ℚ),
      heapAll (fun n => nodeRooted fl n ∧ nodeSound w ww n) openList →
      astarLoop w ww toN fuel openList closed = some res →
      ∃ cur, res.1 = cur.chain ∧ cur.nodeId = toN.nodeId ∧
        nodeRooted fl cur ∧ nodeSound w ww cur := by
  intro fuel
  induction fuel with
  | zero =>
    intro openList closed res _ h
    rw [astarLoop] at h
    exact Option.noConfusion h
  | succ fuel ih =>
    intro openList closed res hq h
    rw [astarLoop] at h
    split at h
    · exact Option.noConfusion h
    · next hne =>
      dsimp only at h
      have hnodes : openList.nodes ≠ [] := by
        intro hc
        exact hne (by rw [hc]; rfl)
      have hpop := heapAll_heapPop _ openList hnodes hq
      split at h
      · next hid =>
        cases h
        exact ⟨(heapPop openList).1, rfl, hid, hpop.1.1, hpop.1.2⟩
      · exact ih _ _ _
          (heapAll_expandNeighbors w ww toN (heapPop openList).1
            ((heapPop openList).1.nodeId :: closed) fl hpop.1
            (PathNeighbors (heapPop openList).1 w) (heapPop openList).2
            (pathNeighbors_habitable _ w) hpop.2) h

/-- C6 (amended): for every successful GetPath call — one that returns a
non-empty path — from an in-bounds start cell in a world of positive width,
the returned location list is the reversed goal-to-start parent chain and
therefore STARTS with the start cell itself (the start cell is included,
contrary to the spec's "excluded") and ends with the goal cell. -/
theorem claimC6_path_endpoints (w : RandomWorld) (f t : Location)
    (locs : List Location) (hW : 0 < w.Width)
    (hf : w.IsOutOfBounds f = false)
    (hres : GetPath w f t = locs) (hne : locs ≠ []) :
    locs.head? = some f ∧ locs.getLast? = some t := by
  unfold GetPath at hres
  dsimp only at hres
  split at hres
  · exact absurd hres.symm hne
  · next hcond =>
    push_neg at hcond
    have thab : w.IsHabitable t = true := hcond.1
    split at hres
    · exact absurd hres.symm hne
    · next pr heq =>
      -- the successful astar run
      rw [astar] at heq
      have hseed : nodeRooted f ((ANode.node f.X f.Y 0 none 0 0).withId
          (nodeIdOf w.Width (ANode.node f.X f.Y 0 none 0 0))) ∧
          nodeSound w w.Width ((ANode.node f.X f.Y 0 none 0 0).withId
          (nodeIdOf w.Width (ANode.node f.X f.Y 0 none 0 0))) := by
        refine ⟨?_, hf, rfl⟩
        unfold nodeRooted
        rfl
      have hinit : heapAll (fun n => nodeRooted f n ∧ nodeSound w w.Width n)
          (heapPush ⟨[], []⟩ ((ANode.node f.X f.Y 0 none 0 0).withId
            (nodeIdOf w.Width (ANode.node f.X f.Y 0 none 0 0)))) := by
        apply heapAll_heapPush
        · intro n hn
          exact absurd hn (List.not_mem_nil n)
        · exact hseed
      obtain ⟨cur, hchain, hid, hroot, hsound⟩ :=
        astarLoop_endpoints w w.Width
          ((ANode.node t.X t.Y 0 none 0 0).withId
            (nodeIdOf w.Width (ANode.node t.X t.Y 0 none 0 0))) f
          _ _ _ _ hinit heq
      -- the goal node's coordinates agree with t by row-major injectivity
      have hcb := not_oob_bounds w cur.loc hsound.1
      have htb := not_oob_bounds w t (isHabitable_oob_false w t thab)
      have he : cur.y * w.Width + cur.x = t.Y * w.Width + t.X := by
        rw [← hsound.2]
        exact hid
      have hxy := rowmajor_inj w.Width cur.x cur.y t.X t.Y hW
        hcb.1 hcb.2.1 htb.1 htb.2.1 he
      have hloc : cur.loc = t := by
        show (⟨cur.x, cur.y⟩ : Location) = t
        rw [hxy.1, hxy.2]
      rw [← hres, hchain]
      constructor
      · rw [List.head?_reverse, map_getLast?, hroot]
      · rw [List.getLast?_reverse, List.head?_map, chain_head]
        rw [show (some cur).map ANode.loc = some cur.loc from rfl, hloc]

/-- Witness for the amended C6 theorem: on the 2x1 grassland strip the path
from (0,0) to (1,0) is non-empty, starts at the start cell and ends at the
goal cell. -/
theorem claimC6_path_endpoints_witness :
    ([(⟨0, 0⟩ : Location), ⟨1, 0⟩].head? = some ⟨0, 0⟩ ∧
     [(⟨0, 0⟩ : Location), ⟨1, 0⟩].getLast? = some ⟨1, 0⟩) :=
  claimC6_path_endpoints world2x1 ⟨0, 0⟩ ⟨1, 0⟩ [⟨0, 0⟩, ⟨1, 0⟩]
    (by with_unfolding_all decide) (by with_unfolding_all rfl)
    (by with_unfolding_all rfl) (by simp)

theorem senseWander_action (w : RandomWorld) (b : Being) (s : List Location)
    (c : Location) (rng : Rng) : (senseWander w b s c rng).1 = "wander" := by
  unfold senseWander
  dsimp only
  split
  · rfl
  · repeat' split
    all_goals rfl

theorem sense_eat_speed (w : RandomWorld) (b : Being) (rng : Rng)
    (loc : Location) (b2 : Being) (w2 : RandomWorld) (rng2 : Rng)
    (hc : b.TypeTag = "Carnivore")
    (h : SenseActionFor w b rng = ("eat", loc, b2, w2, rng2)) :
    b2 = { b with Speed := b.Speed * 2 } ∧ rng2 = rng := by
  unfold SenseActionFor at h
  dsimp only at h
  by_cases hTH : b.Thirst ≥ b.Hunger
  · rw [if_pos hTH] at h
    by_cases hTW : b.Thirst ≥ b.WantsChild
    · -- action candidate "drink"
      rw [if_pos hTW] at h
      dsimp only at h
      by_cases hT0 : b.Thirst ≤ 0
      · rw [if_pos hT0, ite_self] at h
        have hng : ¬ ((b.TypeTag = "Carnivore" ∧ ("wander" : String) = "drink") ∨
            ("wander" : String) = "mate") := by
          rintro (⟨_, hx⟩ | hx) <;> exact absurd hx (by decide)
        rw [if_neg hng, if_pos rfl] at h
        have h5 := congrArg Prod.fst h
        rw [senseWander_action] at h5
        dsimp only at h5
        exact absurd h5 (by decide)
      · rw [if_neg hT0] at h
        split at h
        · have hng : ¬ ((b.TypeTag = "Carnivore" ∧ ("wander" : String) = "drink") ∨
              ("wander" : String) = "mate") := by
            rintro (⟨_, hx⟩ | hx) <;> exact absurd hx (by decide)
          rw [if_neg hng, if_pos rfl] at h
          have h5 := congrArg Prod.fst h
          rw [senseWander_action] at h5
          dsimp only at h5
          exact absurd h5 (by decide)
        · rw [if_pos (Or.inl ⟨hc, rfl⟩)] at h
          split at h
          · simp only [Prod.mk.injEq] at h
            exact absurd h.1 (by decide)
          · have h5 := congrArg Prod.fst h
            rw [senseWander_action] at h5
            dsimp only at h5
            exact absurd h5 (by decide)
    · -- action candidate "mate"
      rw [if_neg hTW] at h
      dsimp only at h
      by_cases hW0 : b.WantsChild ≤ 0
      · rw [if_pos hW0, ite_self] at h
        have hng : ¬ ((b.TypeTag = "Carnivore" ∧ ("wander" : String) = "drink") ∨
            ("wander" : String) = "mate") := by
          rintro (⟨_, hx⟩ | hx) <;> exact absurd hx (by decide)
        rw [if_neg hng, if_pos rfl] at h
        have h5 := congrArg Prod.fst h
        rw [senseWander_action] at h5
        dsimp only at h5
        exact absurd h5 (by decide)
      · rw [if_neg hW0] at h
        split at h
        · have hng : ¬ ((b.TypeTag = "Carnivore" ∧ ("wander" : String) = "drink") ∨
              ("wander" : String) = "mate") := by
            rintro (⟨_, hx⟩ | hx) <;> exact absurd hx (by decide)
          rw [if_neg hng, if_pos rfl] at h
          have h5 := congrArg Prod.fst h
          rw [senseWander_action] at h5
          dsimp only at h5
          exact absurd h5 (by decide)
        · rw [if_pos (Or.inr rfl)] at h
          split at h
          · simp only [Prod.mk.injEq] at h
            exact absurd h.1 (by decide)
          · have h5 := congrArg Prod.fst h
            rw [senseWander_action] at h5
            dsimp only at h5
            exact absurd h5 (by decide)
  · rw [if_neg hTH] at h
    by_cases hHW : b.Hunger ≥ b.WantsChild
    · -- action candidate "eat"
      rw [if_pos hHW] at h
      dsimp only at h
      by_cases hH0 : b.Hunger ≤ 0
      · rw [if_pos hH0, ite_self] at h
        have hng : ¬ ((b.TypeTag = "Carnivore" ∧ ("wander" : String) = "drink") ∨
            ("wander" : String) = "mate") := by
          rintro (⟨_, hx⟩ | hx) <;> exact absurd hx (by decide)
        rw [if_neg hng, if_pos rfl] at h
        have h5 := congrArg Prod.fst h
        rw [senseWander_action] at h5
        dsimp only at h5
        exact absurd h5 (by decide)
      · rw [if_neg hH0] at h
        split at h
        · have hng : ¬ ((b.TypeTag = "Carnivore" ∧ ("wander" : String) = "drink") ∨
              ("wander" : String) = "mate") := by
            rintro (⟨_, hx⟩ | hx) <;> exact absurd hx (by decide)
          rw [if_neg hng, if_pos rfl] at h
          have h5 := congrArg Prod.fst h
          rw [senseWander_action] at h5
          dsimp only at h5
          exact absurd h5 (by decide)
        · -- the genuine "eat" outcome
          have hng : ¬ ((b.TypeTag = "Carnivore" ∧ ("eat" : String) = "drink") ∨
              ("eat" : String) = "mate") := by
            rintro (⟨_, hx⟩ | hx) <;> exact absurd hx (by decide)
          rw [if_neg hng, if_neg (show ¬ (("eat" : String) = "wander") by decide),
            if_pos ⟨rfl, hc⟩] at h
          simp only [Prod.mk.injEq] at h
          exact ⟨h.2.2.1.symm, h.2.2.2.2.symm⟩
    · -- action candidate "mate"
      rw [if_neg hHW] at h
      dsimp only at h
      by_cases hW0 : b.WantsChild ≤ 0
      · rw [if_pos hW0, ite_self] at h
        have hng : ¬ ((b.TypeTag = "Carnivore" ∧ ("wander" : String) = "drink") ∨
            ("wander" : String) = "mate") := by
          rintro (⟨_, hx⟩ | hx) <;> exact absurd hx (by decide)
        rw [if_neg hng, if_pos rfl] at h
        have h5 := congrArg Prod.fst h
        rw [senseWander_action] at h5
        dsimp only at h5
        exact absurd h5 (by decide)
      · rw [if_neg hW0] at h
        split at h
        · have hng : ¬ ((b.TypeTag = "Carnivore" ∧ ("wander" : String) = "drink") ∨
              ("wander" : String) = "mate") := by
            rintro (⟨_, hx⟩ | hx) <;> exact absurd hx (by decide)
          rw [if_neg hng, if_pos rfl] at h
          have h5 := congrArg Prod.fst h
          rw [senseWander_action] at h5
          dsimp only at h5
          exact absurd h5 (by decide)
        · rw [if_pos (Or.inr rfl)] at h
          split at h
          · simp only [Prod.mk.injEq] at h
            exact absurd h.1 (by decide)
          · have h5 := congrArg Prod.fst h
            rw [senseWander_action] at h5
            dsimp only at h5
            exact absurd h5 (by decide)

theorem AdjustStressFor_ID (w : RandomWorld) (b : Being) :
    (AdjustStressFor w b).ID = b.ID := by
  unfold AdjustStressFor
  rfl

theorem AdjustStressFor_Speed (w : RandomWorld) (b : Being) :
    (AdjustStressFor w b).Speed = b.Speed := by
  unfold AdjustStressFor
  rfl

theorem AdjustStressFor_Hunger (w : RandomWorld) (b : Being) :
    (AdjustStressFor w b).Hunger = b.Hunger := by
  unfold AdjustStressFor
  rfl

theorem AdjustStressFor_Durability (w : RandomWorld) (b : Being) :
    (AdjustStressFor w b).Durability = b.Durability := by
  unfold AdjustStressFor
  rfl

theorem AdjustStressFor_Size (w : RandomWorld) (b : Being) :
    (AdjustStressFor w b).Size = b.Size := by
  unfold AdjustStressFor
  rfl

theorem AdjustStressFor_stress_nonneg (w : RandomWorld) (b : Being)
    (ht : 0 ≤ b.Thirst) (hh : 0 ≤ b.Hunger) (hwc : 0 ≤ b.WantsChild)
    (hsz : b.Size ≤ sizeRange.Max) :
    0 ≤ (AdjustStressFor w b).Stress := by
  unfold AdjustStressFor
  dsimp only
  have hsc : 0 ≤ 1 - b.Size / (sizeRange.Max * (11/10)) := by
    have h64 : b.Size ≤ (64 : ℚ) := hsz
    have h2 : sizeRange.Max * ((11 : ℚ)/10) = 352/5 := by norm_num [sizeRange]
    rw [h2]
    have h3 : b.Size / ((352 : ℚ)/5) = b.Size * (5/352) := by ring
    rw [h3]
    linarith
  split
  · split
    · norm_num
    · nlinarith [mul_nonneg (show (0 : ℚ) ≤ b.Thirst + b.Hunger + b.WantsChild by
        linarith) hsc]
  · split
    · norm_num
    · nlinarith [mul_nonneg (show (0 : ℚ) ≤ b.Thirst + b.Hunger + b.WantsChild by
        linarith) hsc]

set_option maxHeartbeats 2000000 in
theorem AdjustNeeds_ID (w : RandomWorld) (b : Being) :
    (AdjustNeeds w b).ID = b.ID := by
  unfold AdjustNeeds
  dsimp only
  split_ifs <;> rfl

set_option maxHeartbeats 2000000 in
theorem AdjustNeeds_Speed (w : RandomWorld) (b : Being) :
    (AdjustNeeds w b).Speed = b.Speed := by
  unfold AdjustNeeds
  dsimp only
  split_ifs <;> rfl

set_option maxHeartbeats 2000000 in
theorem AdjustNeeds_hunger (w : RandomWorld) (b : Being) :
    (AdjustNeeds w b).Hunger = b.Hunger + hungerIncrease *
      ((1 - b.Durability / (durabilityRange.Max * (143/100))) *
       (1 + b.Speed / speedRange.Max) * (1 + b.Stress / stressRange.Max) *
       (1 + b.Size / sizeRange.Max)) := by
  unfold AdjustNeeds
  dsimp only
  split_ifs <;> rfl

theorem quenchHunger_eats_being (w : RandomWorld) (b prey : Being)
    (foodSpot : Location)
    (hadj : DistanceSq b.Position foodSpot < 4)
    (hspot : (w.spotAt foodSpot).Being = some prey.ID)
    (hlook : alLookup prey.ID w.BeingList = some prey)
    (hc : b.TypeTag = "Carnivore" ∨ b.TypeTag = "Flying") :
    QuenchHunger w b foodSpot =
      (true,
       if b.Hunger - prey.Size * 4 < 0 then { b with Hunger := 0 }
         else { b with Hunger := b.Hunger - prey.Size * 4 },
       ({ w with BeingList := alDelete prey.ID w.BeingList }).setSpot foodSpot
         { w.spotAt foodSpot with Being := none }) := by
  unfold QuenchHunger
  rw [if_pos hadj]
  have hcond : (w.spotAt foodSpot).Being ≠ none ∧
      (b.TypeTag = "Carnivore" ∨ b.TypeTag = "Flying") := by
    refine ⟨?_, hc⟩
    rw [hspot]
    simp
  rw [if_pos hcond]
  dsimp only
  rw [hspot]
  simp only [Option.getD_some]
  rw [hlook]
  simp only [Option.getD_some]
  split
  · rfl
  · rfl

theorem spotAt_setBeingList (w : RandomWorld) (l : Location)
    (bl : List (ℕ × Being)) :
    ({ w with BeingList := bl }).spotAt l = w.spotAt l := rfl

theorem needs_multiplier_nonneg (w : RandomWorld) (b4 : Being)
    (hdur : b4.Durability ≤ durabilityRange.Max) (hsp : 0 ≤ b4.Speed)
    (ht : 0 ≤ b4.Thirst) (hh : 0 ≤ b4.Hunger) (hwc : 0 ≤ b4.WantsChild)
    (hszl : 0 ≤ b4.Size) (hszu : b4.Size ≤ sizeRange.Max) :
    0 ≤ hungerIncrease *
      ((1 - (AdjustStressFor w b4).Durability / (durabilityRange.Max * (143/100))) *
       (1 + (AdjustStressFor w b4).Speed / speedRange.Max) *
       (1 + (AdjustStressFor w b4).Stress / stressRange.Max) *
       (1 + (AdjustStressFor w b4).Size / sizeRange.Max)) := by
  rw [AdjustStressFor_Durability, AdjustStressFor_Speed, AdjustStressFor_Size]
  have hst := AdjustStressFor_stress_nonneg w b4 ht hh hwc hszu
  have f1 : (0 : ℚ) ≤ 1 - b4.Durability / (durabilityRange.Max * (143/100)) := by
    have h2 : durabilityRange.Max * ((143 : ℚ)/100) = 7293/20 := by
      norm_num [durabilityRange]
    rw [h2]
    have h3 : b4.Durability / ((7293 : ℚ)/20) = b4.Durability * (20/7293) := by ring
    rw [h3]
    have h4 : b4.Durability ≤ (255 : ℚ) := hdur
    linarith
  have f2 : (0 : ℚ) ≤ 1 + b4.Speed / speedRange.Max := by
    have h2 := div_nonneg hsp (show (0:ℚ) ≤ speedRange.Max by norm_num [speedRange])
    linarith
  have f3 : (0 : ℚ) ≤ 1 + (AdjustStressFor w b4).Stress / stressRange.Max := by
    have h2 := div_nonneg hst (show (0:ℚ) ≤ stressRange.Max by norm_num [stressRange])
    linarith
  have f4 : (0 : ℚ) ≤ 1 + b4.Size / sizeRange.Max := by
    have h2 := div_nonneg hszl (show (0:ℚ) ≤ sizeRange.Max by norm_num [sizeRange])
    linarith
  have h0 : (0 : ℚ) ≤ hungerIncrease := by norm_num [hungerIncrease]
  exact mul_nonneg h0 (mul_nonneg (mul_nonneg (mul_nonneg f1 f2) f3) f4)

/-- C2 (amended): a living carnivore whose sense phase picks the eat action on
an adjacent cell occupied by a registered prey being (the occupied goal makes
the pathfinder report an empty path) eats the prey within the same update:
the prey is removed from the being registry and from its grid cell, the
reported action is "ate being" with the prey's id as the affected object, the
carnivore's hunger drops by four times the prey's size floored at zero before
the nonnegative per-epoch needs increase is added, and the carnivore's speed
ends the update EQUAL to its value before the update — the sense phase
doubles it for the hunt and the successful meal halves it back, so the spec's
claim that eating halves the speed is false for the update as a whole. -/
theorem claimC2_eat_adjacent_prey
    (w w1 : RandomWorld) (b bs prey : Being) (rng rng1 : Rng) (fresh : List ℕ)
    (preyLoc : Location)
    (halive : ¬ (b.LifeExpectancy ≤ 0 ∨ b.Thirst ≥ 255 ∨ b.Hunger ≥ 255))
    (hcarn : b.TypeTag = "Carnivore")
    (hsense : SenseActionFor w { b with LifeExpectancy := b.LifeExpectancy - 1 / 60 }
      rng = ("eat", preyLoc, bs, w1, rng1))
    (hprey : (w1.spotAt preyLoc).Being = some prey.ID)
    (hlook : alLookup prey.ID w1.BeingList = some prey)
    (hadj : DistanceSq b.Position preyLoc < 4)
    (hids : prey.ID ≠ b.ID)
    (hsp : 0 ≤ b.Speed) (ht : 0 ≤ b.Thirst) (hwc : 0 ≤ b.WantsChild)
    (hdur : b.Durability ≤ durabilityRange.Max)
    (hsz : 0 ≤ b.Size ∧ b.Size ≤ sizeRange.Max) :
    ∃ wf,
      UpdateBeing w b rng fresh = ("ate being", [some prey.ID], wf, rng1, fresh) ∧
      alLookup prey.ID wf.BeingList = none ∧
      (wf.spotAt preyLoc).Being = none ∧
      ∃ bf, alLookup b.ID wf.BeingList = some bf ∧
        bf.Speed = b.Speed ∧
        ∃ inc, bf.Hunger = (if b.Hunger - prey.Size * 4 < 0 then 0
          else b.Hunger - prey.Size * 4) + inc ∧ 0 ≤ inc := by
  obtain ⟨hbs, _⟩ := sense_eat_speed w
    { b with LifeExpectancy := b.LifeExpectancy - 1 / 60 } rng preyLoc bs w1 rng1
    hcarn hsense
  subst hbs
  have hpath : GetPath w1 b.Position preyLoc = [] := by
    apply getPath_empty_of_target_being
    rw [hprey]
    simp
  have heat : (b.TypeTag = "Flying" ∨ b.TypeTag = "Carnivore") ∧
      ¬ (some prey.ID = none) := ⟨Or.inr hcarn, by simp⟩
  by_cases hH : b.Hunger - prey.Size * 4 < 0
  · refine ⟨{ eatenWorld w1 prey.ID preyLoc with BeingList := alSet b.ID (AdjustNeeds (eatenWorld w1 prey.ID preyLoc) (AdjustStressFor (eatenWorld w1 prey.ID preyLoc) (carnAfterMeal b 0))) (eatenWorld w1 prey.ID preyLoc).BeingList }, ?_, ?_, ?_, AdjustNeeds (eatenWorld w1 prey.ID preyLoc) (AdjustStressFor (eatenWorld w1 prey.ID preyLoc) (carnAfterMeal b 0)), ?_, ?_, needsIncrement (AdjustStressFor (eatenWorld w1 prey.ID preyLoc) (carnAfterMeal b 0)), ?_, ?_⟩
    · unfold UpdateBeing
      rw [if_neg halive]
      dsimp only
      rw [hsense]
      dsimp only
      rw [hpath]
      simp only [List.length_nil, Nat.cast_zero, ge_iff_le]
      rw [if_neg (show ¬ ("eat" : String) = "drink" by decide)]
      rw [if_pos (trivial : True)]
      rw [if_pos (goInt_nonneg (b.Speed * 2) (by linarith))]
      rw [if_neg (show ¬ (1 ≤ (0 : ℕ)) by decide)]
      dsimp only
      rw [hprey]
      rw [if_pos heat, if_pos heat]
      rw [quenchHunger_eats_being w1 { b with LifeExpectancy := b.LifeExpectancy - 1 / 60, Speed := b.Speed * 2 } prey preyLoc hadj hprey hlook (Or.inl hcarn)]
      dsimp only
      rw [if_pos hH]
      dsimp only
      rw [if_pos hcarn]
      split
      · next hCC => exact absurd hCC.2.1 (by decide)
      · rw [AdjustNeeds_ID, AdjustStressFor_ID]
        dsimp only
        rfl
    · dsimp only
      rw [alLookup_alSet_ne prey.ID b.ID _ _ hids]
      rw [show (eatenWorld w1 prey.ID preyLoc).BeingList
        = alDelete prey.ID w1.BeingList from rfl]
      exact alLookup_alDelete_self prey.ID w1.BeingList
    · rw [spotAt_setBeingList]
      unfold eatenWorld
      rcases setSpot_spotAt_self { w1 with BeingList := alDelete prey.ID w1.BeingList } preyLoc { w1.spotAt preyLoc with Being := none } with hcc | hcc
      · rw [hcc]
      · rw [hcc]
        rfl
    · dsimp only
      rw [alLookup_alSet_self]
    · rw [AdjustNeeds_Speed, AdjustStressFor_Speed]
      unfold carnAfterMeal
      dsimp only
      ring
    · rw [AdjustNeeds_hunger, AdjustStressFor_Hunger]
      unfold carnAfterMeal needsIncrement
      dsimp only
      rw [if_pos hH]
    · unfold needsIncrement
      apply needs_multiplier_nonneg
      · exact hdur
      · show (0 : ℚ) ≤ b.Speed * 2 / 2
        linarith
      · exact ht
      · exact le_refl 0
      · exact hwc
      · exact hsz.1
      · exact hsz.2
  · refine ⟨{ eatenWorld w1 prey.ID preyLoc with BeingList := alSet b.ID (AdjustNeeds (eatenWorld w1 prey.ID preyLoc) (AdjustStressFor (eatenWorld w1 prey.ID preyLoc) (carnAfterMeal b (b.Hunger - prey.Size * 4)))) (eatenWorld w1 prey.ID preyLoc).BeingList }, ?_, ?_, ?_, AdjustNeeds (eatenWorld w1 prey.ID preyLoc) (AdjustStressFor (eatenWorld w1 prey.ID preyLoc) (carnAfterMeal b (b.Hunger - prey.Size * 4))), ?_, ?_, needsIncrement (AdjustStressFor (eatenWorld w1 prey.ID preyLoc) (carnAfterMeal b (b.Hunger - prey.Size * 4))), ?_, ?_⟩
    · unfold UpdateBeing
      rw [if_neg halive]
      dsimp only
      rw [hsense]
      dsimp only
      rw [hpath]
      simp only [List.length_nil, Nat.cast_zero, ge_iff_le]
      rw [if_neg (show ¬ ("eat" : String) = "drink" by decide)]
      rw [if_pos (trivial : True)]
      rw [if_pos (goInt_nonneg (b.Speed * 2) (by linarith))]
      rw [if_neg (show ¬ (1 ≤ (0 : ℕ)) by decide)]
      dsimp only
      rw [hprey]
      rw [if_pos heat, if_pos heat]
      rw [quenchHunger_eats_being w1 { b with LifeExpectancy := b.LifeExpectancy - 1 / 60, Speed := b.Speed * 2 } prey preyLoc hadj hprey hlook (Or.inl hcarn)]
      dsimp only
      rw [if_neg hH]
      dsimp only
      rw [if_pos hcarn]
      split
      · next hCC => exact absurd hCC.2.1 (by decide)
      · rw [AdjustNeeds_ID, AdjustStressFor_ID]
        dsimp only
        rfl
    · dsimp only
      rw [alLookup_alSet_ne prey.ID b.ID _ _ hids]
      rw [show (eatenWorld w1 prey.ID preyLoc).BeingList
        = alDelete prey.ID w1.BeingList from rfl]
      exact alLookup_alDelete_self prey.ID w1.BeingList
    · rw [spotAt_setBeingList]
      unfold eatenWorld
      rcases setSpot_spotAt_self { w1 with BeingList := alDelete prey.ID w1.BeingList } preyLoc { w1.spotAt preyLoc with Being := none } with hcc | hcc
      · rw [hcc]
      · rw [hcc]
        rfl
    · dsimp only
      rw [alLookup_alSet_self]
    · rw [AdjustNeeds_Speed, AdjustStressFor_Speed]
      unfold carnAfterMeal
      dsimp only
      ring
    · rw [AdjustNeeds_hunger, AdjustStressFor_Hunger]
      unfold carnAfterMeal needsIncrement
      dsimp only
      rw [if_neg hH]
    · unfold needsIncrement
      apply needs_multiplier_nonneg
      · exact hdur
      · show (0 : ℚ) ≤ b.Speed * 2 / 2
        linarith
      · exact ht
      · exact not_lt.mp hH
      · exact hwc
      · exact hsz.1
      · exact hsz.2

/-- Witness for the amended C2 theorem: the concrete carnivore at (2,2) with
the flier of size 10 on the adjacent cell (2,3). -/
theorem claimC2_eat_adjacent_prey_witness :
    ∃ wf,
      UpdateBeing c2World c2Carn ⟨[], []⟩ [] =
        ("ate being", [some c2Prey.ID], wf, ⟨[], []⟩, []) ∧
      alLookup c2Prey.ID wf.BeingList = none ∧
      (wf.spotAt ⟨2, 3⟩).Being = none ∧
      ∃ bf, alLookup c2Carn.ID wf.BeingList = some bf ∧
        bf.Speed = c2Carn.Speed ∧
        ∃ inc, bf.Hunger = (if c2Carn.Hunger - c2Prey.Size * 4 < 0 then 0
          else c2Carn.Hunger - c2Prey.Size * 4) + inc ∧ 0 ≤ inc :=
  claimC2_eat_adjacent_prey c2World c2World c2Carn
    { c2Carn with LifeExpectancy := c2Carn.LifeExpectancy - 1 / 60, Speed := c2Carn.Speed * 2 }
    c2Prey ⟨[], []⟩ ⟨[], []⟩ [] ⟨2, 3⟩
    (by with_unfolding_all decide) rfl (by with_unfolding_all rfl)
    (by with_unfolding_all rfl) (by with_unfolding_all rfl)
    (by with_unfolding_all decide) (by decide) (by with_unfolding_all decide)
    (by with_unfolding_all decide) (by with_unfolding_all decide)
    (by with_unfolding_all decide) (by with_unfolding_all decide)
